import Mathlib

/-!
# PxrUsdInCore_PointInstancerOp

A shallow embedding of `third_party/katana/plugin/pxrUsdInShipped/pointInstancer.cpp`
and theorems about it.

Conventions of the embedding.

* `double` values (times, matrix entries) are elements of an arbitrary type `R`
  with an addition, a zero and decidable equality; nothing is assumed about the
  arithmetic, so every theorem holds for any interpretation of `+`.
* The two collaborators (`ComputeInstanceTransformsAtTime`,
  `PxrUsdKatanaReadPointInstancer`) and `PxrUsdKatanaUtils::ReverseTimeSample`
  are not part of the translation unit; they are parameters (`Collaborators`).
* The cook interface is a state: its output attributes plus a log of the calls
  the op has made, in order.
* Reading a `std::vector` out of range is undefined behaviour in C++; the
  embedding returns `none` (flattening) and `Except.error` (the op) there.
-/

namespace PxrUsdIn

/-! ## Association lists (name → value, time → buffer) -/

/-- Value stored under key `k`, if any. -/
def assocGet {K V : Type} [DecidableEq K] (k : K) : List (K × V) → Option V
  | [] => none
  | (k', v) :: rest => if k' = k then some v else assocGet k rest

/-- Overwrite-or-insert: an existing entry is replaced in place, a new one is
appended at the end. -/
def assocSet {K V : Type} [DecidableEq K] (k : K) (v : V) : List (K × V) → List (K × V)
  | [] => [(k, v)]
  | (k', v') :: rest => if k' = k then (k, v) :: rest else (k', v') :: assocSet k v rest

/-! ## Loops -/

/-- The loop `for (a = 0; a < n; ++a) s = body(a, s)`. -/
def forLoop {σ : Type} (n : Nat) (body : Nat → σ → σ) (s : σ) : σ :=
  match n with
  | 0 => s
  | k + 1 => body k (forLoop k body s)

/-- The loop `for (a = 0; a < n; ++a) s = body(a, s)` where the body may read
out of range (`none`), which aborts the loop. -/
def forLoopM {σ : Type} (n : Nat) (body : Nat → σ → Option σ) (s : σ) : Option σ :=
  match n with
  | 0 => some s
  | k + 1 => (forLoopM k body s).bind (body k)

/-! ## Attributes -/

/-- Modelled from the spec: FnKat::Attribute (the Katana attribute API is not
among the sources). An attribute is invalid (`null`), an integer, a string, a
double attribute made of time-keyed buffers with a tuple size, or a group of
named children. -/
inductive Attribute (R : Type) where
  | null : Attribute R
  | int (value : Int) : Attribute R
  | string (value : String) : Attribute R
  | double (tupleSize : Nat) (samples : List (R × List R)) : Attribute R
  | group (children : List (String × Attribute R)) : Attribute R

namespace Attribute

variable {R : Type}

/-- The children seen through `FnKat::GroupAttribute`: an attribute that is not
a group converts to an invalid group attribute, which has no children. -/
def children : Attribute R → List (String × Attribute R)
  | group cs => cs
  | _ => []

/-- Modelled from the spec: `GroupAttribute::isValid` of an attribute held as a
group attribute. -/
def isValid : Attribute R → Bool
  | group _ => true
  | _ => false

/-- Modelled from the spec: `GroupAttribute::getChildByName`; an absent child
(or an invalid group) gives the invalid attribute. -/
def getChildByName (a : Attribute R) (name : String) : Attribute R :=
  (assocGet name a.children).getD null

/-- Modelled from the spec: `GroupAttribute::getNumberOfChildren` (0 for an
invalid group). -/
def getNumberOfChildren (a : Attribute R) : Nat := a.children.length

/-- Modelled from the spec: `GroupAttribute::getChildName`. -/
def getChildName (a : Attribute R) (i : Nat) : String :=
  match a.children[i]? with
  | some (n, _) => n
  | none => ""

/-- Modelled from the spec: `GroupAttribute::getChildByIndex`. -/
def getChildByIndex (a : Attribute R) (i : Nat) : Attribute R :=
  match a.children[i]? with
  | some (_, v) => v
  | none => null

/-- Modelled from the spec: `FnKat::StringAttribute(a).getValue(dflt, false)`;
an attribute that is not a string yields the default. -/
def getStringValue (a : Attribute R) (dflt : String) : String :=
  match a with
  | string v => v
  | _ => dflt

/-- Modelled from the spec: the time-keyed buffers of a double attribute
(`DoubleAttribute`); any other attribute has none. -/
def samples : Attribute R → List (R × List R)
  | double _ ss => ss
  | _ => []

/-- Modelled from the spec: `DataAttribute::getNumberOfTimeSamples`. -/
def getNumberOfTimeSamples (a : Attribute R) : Nat := a.samples.length

end Attribute

/-- Modelled from the spec: FnKat::GroupBuilder, the entries set so far. -/
structure GroupBuilder (R : Type) where
  entries : List (String × Attribute R)

namespace GroupBuilder

variable {R : Type}

/-- A fresh `FnKat::GroupBuilder()`. -/
def new : GroupBuilder R := ⟨[]⟩

/-- Modelled from the spec: `GroupBuilder::set`, overwrite-or-insert. -/
def set (b : GroupBuilder R) (name : String) (v : Attribute R) : GroupBuilder R :=
  ⟨assocSet name v b.entries⟩

/-- Modelled from the spec: `GroupBuilder::update`, which sets every child of
the given group attribute. -/
def update (b : GroupBuilder R) (g : Attribute R) : GroupBuilder R :=
  g.children.foldl (fun acc c => acc.set c.1 c.2) b

/-- Modelled from the spec: `GroupBuilder::build`. -/
def build (b : GroupBuilder R) : Attribute R := Attribute.group b.entries

end GroupBuilder

/-- Modelled from the spec: FnKat::DoubleBuilder, a tuple size and one growable
buffer per time sample. -/
structure DoubleBuilder (R : Type) where
  tupleSize : Nat
  data : List (R × List R)

namespace DoubleBuilder

variable {R : Type} [DecidableEq R]

/-- A fresh `FnKat::DoubleBuilder(tupleSize)`. -/
def new (tupleSize : Nat) : DoubleBuilder R := ⟨tupleSize, []⟩

/-- Modelled from the spec: `DoubleBuilder::get(t)`, the buffer for time `t`,
created empty when there is none yet. The C++ reference is modelled by reading
the buffer here and writing it back with `put` once the pushes are done. -/
def get (b : DoubleBuilder R) (t : R) : List R := (assocGet t b.data).getD []

/-- Write-back of the buffer obtained by `get`. -/
def put (b : DoubleBuilder R) (t : R) (matVec : List R) : DoubleBuilder R :=
  { b with data := assocSet t matVec b.data }

/-- Modelled from the spec: `DoubleBuilder::build`. -/
def build (b : DoubleBuilder R) : Attribute R := Attribute.double b.tupleSize b.data

end DoubleBuilder

/-- Modelled from the spec: GfMatrix4d (pxr/base/gf/matrix4d.h is not among the
sources), a 4x4 matrix of doubles. -/
structure GfMatrix4d (R : Type) where
  mtx : Fin 4 → Fin 4 → R

/-- Modelled from the spec: `GfMatrix4d::GetArray`, the 16 entries in row-major
order. -/
def GfMatrix4d.GetArray {R : Type} (m : GfMatrix4d R) : List R :=
  [m.mtx 0 0, m.mtx 0 1, m.mtx 0 2, m.mtx 0 3,
   m.mtx 1 0, m.mtx 1 1, m.mtx 1 2, m.mtx 1 3,
   m.mtx 2 0, m.mtx 2 1, m.mtx 2 2, m.mtx 2 3,
   m.mtx 3 0, m.mtx 3 1, m.mtx 3 2, m.mtx 3 3]

/-- Modelled from the spec: PxrUsdKatanaAttrMap (usdKatana/attrMap.h is not
among the sources). A map is represented by the group attribute its `build()`
yields, which may be invalid. -/
structure PxrUsdKatanaAttrMap (R : Type) where
  built : Attribute R

namespace PxrUsdKatanaAttrMap

variable {R : Type}

/-- A default-constructed map. -/
def new : PxrUsdKatanaAttrMap R := ⟨Attribute.group []⟩

/-- Modelled from the spec: `set(name, value)`, overwrite-or-insert at the top
level. -/
def set (m : PxrUsdKatanaAttrMap R) (name : String) (v : Attribute R) :
    PxrUsdKatanaAttrMap R :=
  ⟨Attribute.group (assocSet name v m.built.children)⟩

/-- Modelled from the spec: `build()`. -/
def build (m : PxrUsdKatanaAttrMap R) : Attribute R := m.built

end PxrUsdKatanaAttrMap

/-! ## The op's inputs, collaborators and interface -/

/-- Modelled from the spec: PxrUsdKatanaUsdInArgs, of which the op reads the
root prim only. `P` is the type of prim handles. -/
structure UsdInArgs (P : Type) where
  rootPrim : P

/-- Modelled from the spec: PxrUsdKatanaUsdInPrivateData, the per-location
data the op reads: `GetUsdPrim()`, `GetCurrentTime()`, the result of
`GetMotionSampleTimes(instancer.GetPositionsAttr())`, `IsMotionBackward()` and
`GetUsdInArgs()`. -/
structure PrivateData (R P : Type) where
  usdPrim : P
  currentTime : R
  motionSampleTimes : List R
  isMotionBackward : Bool
  usdInArgs : UsdInArgs P

/-- Modelled from the spec: `PxrUsdKatanaUsdInPrivateData::GetMotionSampleTimes`
(usdKatana/usdInPrivateData.cpp is not among the sources), applied to the
ordered motion-sample offsets of the location: an empty list of offsets is
equivalent to the single offset 0. -/
def GetMotionSampleTimes {R : Type} [Zero R] (offsets : List R) : List R :=
  match offsets with
  | [] => [0]
  | t :: rest => t :: rest

/-- The private data of a location whose motion-sample offsets are `offsets`:
the op reads them through `GetMotionSampleTimes` (lines 63-64). -/
def PrivateData.withOffsets {R P : Type} [Zero R] (privateData : PrivateData R P)
    (offsets : List R) : PrivateData R P :=
  { privateData with motionSampleTimes := GetMotionSampleTimes offsets }

/-- The three output maps filled by `PxrUsdKatanaReadPointInstancer`. -/
structure ReaderMaps (R : Type) where
  instancerAttrMap : PxrUsdKatanaAttrMap R
  sourcesAttrMap : PxrUsdKatanaAttrMap R
  instancesAttrMap : PxrUsdKatanaAttrMap R

/-- The code the op calls and that is defined elsewhere.
`ComputeInstanceTransformsAtTime instancer sampleTimes defaultTime` gives
`xformSamples` as left by the call and `numXformSamples`. -/
structure Collaborators (R P : Type) where
  ComputeInstanceTransformsAtTime : P → List R → R → List (List (GfMatrix4d R)) × Nat
  ReadPointInstancer : P → PrivateData R P → PxrUsdKatanaAttrMap R → ReaderMaps R
  ReverseTimeSample : R → R

/-- One call made by the op, as recorded in the interface's log. -/
inductive Call (R P : Type) where
  | computeInstanceTransformsAtTime (instancer : P) (sampleTimes : List R) (defaultTime : R)
  | readPointInstancer (instancer : P) (inputAttrMap : Attribute R)
  | setAttr (name : String) (value : Attribute R)
  | buildAttrMap (map : String)
  | createChild (name opType : String) (args : Attribute R) (resetRoot : Bool) (childPrim : P)
  | execOp (opType : String) (args : Attribute R)

/-- Modelled from the spec: FnKat::GeolibCookInterface, as far as the op uses
it: the output location path, the op arguments, the output attributes set so
far, and the log of calls made. -/
structure GeolibCookInterface (R P : Type) where
  outputLocationPath : String
  opArg : Attribute R
  outputAttrs : List (String × Attribute R)
  calls : List (Call R P)

namespace GeolibCookInterface

variable {R P : Type}

/-- Append a call to the log. -/
def log (i : GeolibCookInterface R P) (c : Call R P) : GeolibCookInterface R P :=
  { i with calls := i.calls ++ [c] }

/-- Modelled from the spec: `setAttr(name, value)`. -/
def setAttr (i : GeolibCookInterface R P) (name : String) (v : Attribute R) :
    GeolibCookInterface R P :=
  { i with outputAttrs := assocSet name v i.outputAttrs,
           calls := i.calls ++ [Call.setAttr name v] }

/-- Modelled from the spec: `getOutputAttr(name)`; invalid when unset. -/
def getOutputAttr (i : GeolibCookInterface R P) (name : String) : Attribute R :=
  (assocGet name i.outputAttrs).getD Attribute.null

/-- Modelled from the spec: `createChild(name, opType, args, resetRoot,
privateData, deleter)`; the child's private data is recorded by its prim. -/
def createChild (i : GeolibCookInterface R P) (name opType : String) (args : Attribute R)
    (resetRoot : Bool) (childPrim : P) : GeolibCookInterface R P :=
  i.log (Call.createChild name opType args resetRoot childPrim)

/-- Modelled from the spec: `execOp(opType, args)`. -/
def execOp (i : GeolibCookInterface R P) (opType : String) (args : Attribute R) :
    GeolibCookInterface R P :=
  i.log (Call.execOp opType args)

end GeolibCookInterface

/-- Modelled from the spec: `PxrUsdKatanaAttrMap::toInterface`, which sets
every top-level entry of the built map on the interface. -/
def PxrUsdKatanaAttrMap.toInterface {R P : Type} (m : PxrUsdKatanaAttrMap R)
    (interface : GeolibCookInterface R P) : GeolibCookInterface R P :=
  m.build.children.foldl (fun i c => i.setAttr c.1 c.2) interface

/-! ## The op (pointInstancer.cpp) -/

section Op

variable {R P : Type} [DecidableEq R] [Add R] [Zero R]

/-- Lines 65-69: `sampleTimes(numSamples)` filled with
`currentTime + motionSampleTimes[a]`. -/
def computeSampleTimes (currentTime : R) (motionSampleTimes : List R) : List R :=
  let numSamples := motionSampleTimes.length
  forLoop numSamples
    (fun a sampleTimes =>
      match motionSampleTimes[a]? with
      | some t => sampleTimes.set a (currentTime + t)
      | none => sampleTimes)
    (List.replicate numSamples 0)

/-- Lines 99-102: the time at which the builder is asked for a buffer. -/
def timeKey (env : Collaborators R P) (privateData : PrivateData R P) (relSampleTime : R) : R :=
  if privateData.isMotionBackward then env.ReverseTimeSample relSampleTime else relSampleTime

/-- Lines 107-112: push the 16 entries of `xformSamples[a][i]`. -/
def pushInstance (xformSamples : List (List (GfMatrix4d R))) (a i : Nat) (matVec : List R) :
    Option (List R) :=
  match xformSamples[a]? with
  | none => none
  | some sample =>
    match sample[i]? with
    | none => none
    | some instanceXform =>
      let matArray := instanceXform.GetArray
      forLoopM 16
        (fun j matVec =>
          match matArray[j]? with
          | some x => some (matVec ++ [x])
          | none => none)
        matVec

/-- Lines 95-113: one iteration of the loop over the produced samples. -/
def flattenSample (env : Collaborators R P) (privateData : PrivateData R P)
    (xformSamples : List (List (GfMatrix4d R))) (numInstances a : Nat)
    (instanceMatrixBldr : DoubleBuilder R) : Option (DoubleBuilder R) :=
  match privateData.motionSampleTimes[a]? with
  | none => none
  | some relSampleTime =>
    let key := timeKey env privateData relSampleTime
    let matVec := instanceMatrixBldr.get key
    match forLoopM numInstances (fun i matVec => pushInstance xformSamples a i matVec) matVec with
    | none => none
    | some matVec => some (instanceMatrixBldr.put key matVec)

/-- Lines 88-115: the `instanceMatrix` attribute; `none` when an index is out
of range. -/
def buildInstanceMatrix (env : Collaborators R P) (privateData : PrivateData R P)
    (xformSamples : List (List (GfMatrix4d R))) (numXformSamples : Nat) :
    Option (Attribute R) :=
  match xformSamples[0]? with
  | none => none
  | some first =>
    let numInstances := first.length
    match forLoopM numXformSamples
        (fun a bldr => flattenSample env privateData xformSamples numInstances a bldr)
        (DoubleBuilder.new 16) with
    | none => none
    | some instanceMatrixBldr => some instanceMatrixBldr.build

/-- The diagnostic of lines 81-84. -/
def noSamplesMessage : String :=
  "Could not compute sample/topology-invarying instance transform matrix"

/-- The `createChild` call of lines 163-173 for one entry of the child group. -/
def sourceChildCall (rootPrim : P) (opArg : Attribute R) (c : String × Attribute R) : Call R P :=
  Call.createChild c.1 "PxrUsdIn.BuildIntermediate"
    (((GroupBuilder.new.update opArg).set "staticScene" c.2).build) false rootPrim

/-- Lines 161-174: one `createChild` per child of `childAttrs`. -/
def createSourceChildren (privateData : PrivateData R P) (childAttrs : Attribute R)
    (interface : GeolibCookInterface R P) : GeolibCookInterface R P :=
  forLoop childAttrs.getNumberOfChildren
    (fun i interface =>
      interface.createChild
        (childAttrs.getChildName i)
        "PxrUsdIn.BuildIntermediate"
        (((GroupBuilder.new.update interface.opArg).set "staticScene"
            (childAttrs.getChildByIndex i)).build)
        false
        privateData.usdInArgs.rootPrim)
    interface

/-- The op `PxrUsdInCore_PointInstancerOp` (lines 38-179). `Except.error` is
returned, with the interface as it stood, when the flattening reads out of
range. -/
def PointInstancerOp (env : Collaborators R P) (privateData : PrivateData R P)
    (interface : GeolibCookInterface R P) :
    Except (GeolibCookInterface R P) (GeolibCookInterface R P) :=
  let instancer := privateData.usdPrim
  let inputAttrMap := (PxrUsdKatanaAttrMap.new (R := R)).set "outputLocationPath"
    (Attribute.string interface.outputLocationPath)
  let currentTime := privateData.currentTime
  let motionSampleTimes := privateData.motionSampleTimes
  let sampleTimes := computeSampleTimes currentTime motionSampleTimes
  let computed := env.ComputeInstanceTransformsAtTime instancer sampleTimes currentTime
  let interface := interface.log
    (Call.computeInstanceTransformsAtTime instancer sampleTimes currentTime)
  let xformSamples := computed.1
  let numXformSamples := computed.2
  if numXformSamples = 0 then
    Except.ok ((interface.setAttr "type" (Attribute.string "error")).setAttr
      "errorMessage" (Attribute.string noSamplesMessage))
  else
    match buildInstanceMatrix env privateData xformSamples numXformSamples with
    | none => Except.error interface
    | some instanceMatrix =>
      let inputAttrMap := inputAttrMap.set "instanceMatrix" instanceMatrix
      let maps := env.ReadPointInstancer instancer privateData inputAttrMap
      let interface := interface.log (Call.readPointInstancer instancer inputAttrMap.build)
      let interface := maps.instancerAttrMap.toInterface interface
      if (interface.getOutputAttr "type").getStringValue "" = "error" then
        Except.ok interface
      else
        let sourcesSSCAttrs := maps.sourcesAttrMap.build
        let instancesSSCAttrs := maps.instancesAttrMap.build
        let interface := (interface.log (Call.buildAttrMap "sourcesAttrMap")).log
          (Call.buildAttrMap "instancesAttrMap")
        if !sourcesSSCAttrs.isValid || !instancesSSCAttrs.isValid then
          Except.ok interface
        else
          let interface := interface.setAttr "__UsdIn.skipAllChildren" (Attribute.int 1)
          let childAttrs := sourcesSSCAttrs.getChildByName "c"
          let interface := createSourceChildren privateData childAttrs interface
          Except.ok (interface.execOp "StaticSceneCreate" instancesSSCAttrs)

/-- Lines 58-78: the result of the call to the transform computer,
`(xformSamples, numXformSamples)`. -/
def computeXforms (env : Collaborators R P) (privateData : PrivateData R P) :
    List (List (GfMatrix4d R)) × Nat :=
  env.ComputeInstanceTransformsAtTime privateData.usdPrim
    (computeSampleTimes privateData.currentTime privateData.motionSampleTimes)
    privateData.currentTime

/-- The log entry of the call to the transform computer. -/
def computeCall (privateData : PrivateData R P) : Call R P :=
  Call.computeInstanceTransformsAtTime privateData.usdPrim
    (computeSampleTimes privateData.currentTime privateData.motionSampleTimes)
    privateData.currentTime

/-- Lines 45-50 and 115: the input map handed to the reader, given the
`instanceMatrix` attribute. -/
def readerInput (interface : GeolibCookInterface R P) (instanceMatrix : Attribute R) :
    PxrUsdKatanaAttrMap R :=
  ((PxrUsdKatanaAttrMap.new (R := R)).set "outputLocationPath"
    (Attribute.string interface.outputLocationPath)).set "instanceMatrix" instanceMatrix

/-- Lines 125-130: the three maps the reader returns, given the
`instanceMatrix` attribute. -/
def readerMaps (env : Collaborators R P) (privateData : PrivateData R P)
    (interface : GeolibCookInterface R P) (instanceMatrix : Attribute R) : ReaderMaps R :=
  env.ReadPointInstancer privateData.usdPrim privateData (readerInput interface instanceMatrix)

/-- The interface as it stands after line 134, once the instancer map has been
sent to it, given the `instanceMatrix` attribute. -/
def afterInstancerMap (env : Collaborators R P) (privateData : PrivateData R P)
    (interface : GeolibCookInterface R P) (instanceMatrix : Attribute R) :
    GeolibCookInterface R P :=
  (readerMaps env privateData interface instanceMatrix).instancerAttrMap.toInterface
    ((interface.log (computeCall privateData)).log
      (Call.readPointInstancer privateData.usdPrim (readerInput interface instanceMatrix).build))

/-- Lines 138-139: the early-exit test on the interface's `type` attribute. -/
def typeIsError (interface : GeolibCookInterface R P) : Bool :=
  (interface.getOutputAttr "type").getStringValue "" = "error"

/-- A call that creates a child location: `createChild`, or the
`StaticSceneCreate` of line 178 that creates the instance-array child. -/
def Call.createsChild : Call R P → Bool
  | Call.createChild _ _ _ _ _ => true
  | Call.execOp _ _ => true
  | _ => false

/-- The interface held by either outcome of the op. -/
def finalInterface (r : Except (GeolibCookInterface R P) (GeolibCookInterface R P)) :
    GeolibCookInterface R P :=
  match r with
  | Except.ok i => i
  | Except.error i => i

/-- A call that writes the output attribute of the given name. -/
def Call.setsAttr (attrName : String) : Call R P → Bool
  | Call.setAttr name _ => name == attrName
  | _ => false

/-- The terminal states of the op, one per return: line 85 (no samples), line
141 (error read back after the instancer map), line 150 (invalid build) and
the end of the body, line 178 (children emitted). -/
inductive TerminalState where
  | errorNoSamples : TerminalState
  | errorFromReader : TerminalState
  | errorInvalidBuild : TerminalState
  | emittingChildren : TerminalState
  deriving DecidableEq

/-- The run of the op ends in the given terminal state: the tests of lines 79,
138 and 148 come out as that return requires, and the op returns normally
with the calls made up to that return. -/
def reaches (env : Collaborators R P) (privateData : PrivateData R P)
    (interface : GeolibCookInterface R P) : TerminalState → Prop
  | TerminalState.errorNoSamples =>
    (computeXforms env privateData).2 = 0 ∧
    ∃ out, PointInstancerOp env privateData interface = Except.ok out ∧
      out.calls = interface.calls ++
        [computeCall privateData,
         Call.setAttr "type" (Attribute.string "error"),
         Call.setAttr "errorMessage" (Attribute.string noSamplesMessage)]
  | TerminalState.errorFromReader =>
    (computeXforms env privateData).2 ≠ 0 ∧
    ∃ instanceMatrix,
      buildInstanceMatrix env privateData (computeXforms env privateData).1
        (computeXforms env privateData).2 = some instanceMatrix ∧
      typeIsError (afterInstancerMap env privateData interface instanceMatrix) = true ∧
      PointInstancerOp env privateData interface =
        Except.ok (afterInstancerMap env privateData interface instanceMatrix)
  | TerminalState.errorInvalidBuild =>
    (computeXforms env privateData).2 ≠ 0 ∧
    ∃ instanceMatrix,
      buildInstanceMatrix env privateData (computeXforms env privateData).1
        (computeXforms env privateData).2 = some instanceMatrix ∧
      typeIsError (afterInstancerMap env privateData interface instanceMatrix) = false ∧
      ((readerMaps env privateData interface instanceMatrix).sourcesAttrMap.build.isValid
          = false ∨
        (readerMaps env privateData interface instanceMatrix).instancesAttrMap.build.isValid
          = false) ∧
      ∃ out, PointInstancerOp env privateData interface = Except.ok out ∧
        out.calls = (afterInstancerMap env privateData interface instanceMatrix).calls ++
          [Call.buildAttrMap "sourcesAttrMap", Call.buildAttrMap "instancesAttrMap"]
  | TerminalState.emittingChildren =>
    (computeXforms env privateData).2 ≠ 0 ∧
    ∃ instanceMatrix,
      buildInstanceMatrix env privateData (computeXforms env privateData).1
        (computeXforms env privateData).2 = some instanceMatrix ∧
      typeIsError (afterInstancerMap env privateData interface instanceMatrix) = false ∧
      (readerMaps env privateData interface instanceMatrix).sourcesAttrMap.build.isValid
        = true ∧
      (readerMaps env privateData interface instanceMatrix).instancesAttrMap.build.isValid
        = true ∧
      ∃ out, PointInstancerOp env privateData interface = Except.ok out ∧
        out.calls = (afterInstancerMap env privateData interface instanceMatrix).calls ++
          [Call.buildAttrMap "sourcesAttrMap", Call.buildAttrMap "instancesAttrMap",
           Call.setAttr "__UsdIn.skipAllChildren" (Attribute.int 1)] ++
          ((readerMaps env privateData interface
              instanceMatrix).sourcesAttrMap.build.getChildByName "c").children.map
            (sourceChildCall privateData.usdInArgs.rootPrim interface.opArg) ++
          [Call.execOp "StaticSceneCreate"
            (readerMaps env privateData interface instanceMatrix).instancesAttrMap.build]

end Op

/-! ## Concrete inputs

Times are integers here; prims are named by their paths. -/

section Examples

/-- A matrix with entries `x, x+1, ..., x+15` in row-major order. -/
def exMatrix (x : Int) : GfMatrix4d Int := ⟨fun i j => x + 4 * i.val + j.val⟩

/-- Private data at frame 10 with motion-sample offsets `-1, 1`. -/
def exPrivateData (backward : Bool) : PrivateData Int String :=
  { usdPrim := "/World/instancer"
    currentTime := 10
    motionSampleTimes := [-1, 1]
    isMotionBackward := backward
    usdInArgs := ⟨"/"⟩ }

/-- An interface on which nothing has been set yet. -/
def exInterface : GeolibCookInterface Int String :=
  { outputLocationPath := "/root/world/geo/instancer"
    opArg := Attribute.group [("staticScene", Attribute.int 7), ("system", Attribute.int 3)]
    outputAttrs := []
    calls := [] }

/-- A transform computer that returns, for each requested time `t`, the three
matrices `exMatrix t`, `exMatrix (t + 100)`, `exMatrix (t + 200)`, and reports
`produced` samples. -/
def exCompute (produced : Nat) (_instancer : String) (sampleTimes : List Int)
    (_defaultTime : Int) : List (List (GfMatrix4d Int)) × Nat :=
  (sampleTimes.map (fun t => [exMatrix t, exMatrix (t + 100), exMatrix (t + 200)]), produced)

/-- Collaborators: `exCompute`, a reader that returns the given maps, and the
reversal `t ↦ -t` (0 is kept). -/
def exEnv (produced : Nat) (maps : ReaderMaps Int) : Collaborators Int String :=
  { ComputeInstanceTransformsAtTime := exCompute produced
    ReadPointInstancer := fun _ _ _ => maps
    ReverseTimeSample := fun t => if t = 0 then t else -t }

/-- Reader maps of a healthy instancer with two prototypes. -/
def exMapsOk : ReaderMaps Int :=
  { instancerAttrMap := ⟨Attribute.group [("type", Attribute.string "usd point instancer")]⟩
    sourcesAttrMap := ⟨Attribute.group [("c", Attribute.group
      [("protoA", Attribute.group [("a", Attribute.int 1)]),
       ("protoB", Attribute.group [("a", Attribute.int 2)])])]⟩
    instancesAttrMap := ⟨Attribute.group [("c", Attribute.group
      [("instances", Attribute.group [])])]⟩ }

/-- Reader maps carrying an error marker on the instancer map. -/
def exMapsError : ReaderMaps Int :=
  { exMapsOk with
    instancerAttrMap := ⟨Attribute.group [("type", Attribute.string "error"),
      ("errorMessage", Attribute.string "no prototypes")]⟩ }

/-- Reader maps whose sources map builds to an invalid attribute. -/
def exMapsInvalid : ReaderMaps Int :=
  { exMapsOk with sourcesAttrMap := ⟨Attribute.null⟩ }

/-- Reader maps whose sources map is valid but has no child named `c`. -/
def exMapsNoC : ReaderMaps Int :=
  { exMapsOk with sourcesAttrMap := ⟨Attribute.group [("other", Attribute.int 0)]⟩ }

/-- Reader maps whose sources map has a valid, empty group `c`. -/
def exMapsEmptyC : ReaderMaps Int :=
  { exMapsOk with sourcesAttrMap := ⟨Attribute.group [("c", Attribute.group [])]⟩ }

/-- The `instanceMatrix` attribute of the forward run of `exPrivateData`. -/
def exInstanceMatrix : Attribute Int :=
  Attribute.double 16
    [(-1, (exMatrix 9).GetArray ++ (exMatrix 109).GetArray ++ (exMatrix 209).GetArray),
     (1, (exMatrix 11).GetArray ++ (exMatrix 111).GetArray ++ (exMatrix 211).GetArray)]

/-- Private data at frame 10 whose two motion-sample offsets coincide. -/
def exPrivateDataDup : PrivateData Int String :=
  { usdPrim := "/World/instancer"
    currentTime := 10
    motionSampleTimes := [0, 0]
    isMotionBackward := false
    usdInArgs := ⟨"/"⟩ }

/-- Collaborators over rational times: a computer that returns the given
samples, a reader that returns three empty maps, and the reversal `t ↦ -t`
(0 is kept). -/
def exEnvQ (xformSamples : List (List (GfMatrix4d ℚ))) : Collaborators ℚ String :=
  { ComputeInstanceTransformsAtTime := fun _ _ _ => (xformSamples, xformSamples.length)
    ReadPointInstancer := fun _ _ _ =>
      ⟨⟨Attribute.group []⟩, ⟨Attribute.group []⟩, ⟨Attribute.group []⟩⟩
    ReverseTimeSample := fun t => if t = 0 then t else -t }

/-- Private data at frame 10 with the offsets -0.5, 0.5 and backward motion. -/
def exPrivateDataQ : PrivateData ℚ String :=
  { usdPrim := "/World/instancer"
    currentTime := 10
    motionSampleTimes := [-0.5, 0.5]
    isMotionBackward := true
    usdInArgs := ⟨"/"⟩ }

/-- Collaborators whose computer reports two produced samples that hold no
matrix at all (an instancer without instances). -/
def exEnvNoInstances : Collaborators Int String :=
  { ComputeInstanceTransformsAtTime := fun _ _ _ => ([[], []], 2)
    ReadPointInstancer := fun _ _ _ => exMapsOk
    ReverseTimeSample := fun t => if t = 0 then t else -t }

end Examples

/-! ## Lemmas on association lists and loops -/

theorem assocGet_assocSet_self {K V : Type} [DecidableEq K] (k : K) (v : V)
    (l : List (K × V)) : assocGet k (assocSet k v l) = some v := by
  induction l with
  | nil => simp [assocSet, assocGet]
  | cons hd tl ih =>
    obtain ⟨k', v'⟩ := hd
    by_cases h : k' = k
    · simp [assocSet, assocGet, h]
    · simp [assocSet, assocGet, h, ih]

theorem assocGet_assocSet_ne {K V : Type} [DecidableEq K] (k k2 : K) (v : V)
    (l : List (K × V)) (hne : k2 ≠ k) : assocGet k2 (assocSet k v l) = assocGet k2 l := by
  induction l with
  | nil =>
    have h : ¬ k = k2 := fun e => hne e.symm
    simp [assocSet, assocGet, h]
  | cons hd tl ih =>
    obtain ⟨k', v'⟩ := hd
    by_cases h : k' = k
    · have h2 : ¬ k = k2 := fun e => hne e.symm
      have h3 : ¬ k' = k2 := fun e => hne (e.symm.trans h)
      simp [assocSet, assocGet, h, h2, h3]
    · by_cases h4 : k' = k2
      · subst h4
        simp [assocSet, assocGet, hne]
      · simp [assocSet, assocGet, h, h4, ih]

theorem assocSet_not_mem {K V : Type} [DecidableEq K] (k : K) (v : V)
    (l : List (K × V)) (h : k ∉ l.map Prod.fst) : assocSet k v l = l ++ [(k, v)] := by
  induction l with
  | nil => simp [assocSet]
  | cons hd tl ih =>
    obtain ⟨k', v'⟩ := hd
    simp only [List.map_cons, List.mem_cons, not_or] at h
    have h1 : ¬ k' = k := fun e => h.1 e.symm
    simp [assocSet, h1, ih h.2]

theorem assocGet_not_mem {K V : Type} [DecidableEq K] (k : K)
    (l : List (K × V)) (h : k ∉ l.map Prod.fst) : assocGet k l = none := by
  induction l with
  | nil => simp [assocGet]
  | cons hd tl ih =>
    obtain ⟨k', v'⟩ := hd
    simp only [List.map_cons, List.mem_cons, not_or] at h
    have h1 : ¬ k' = k := fun e => h.1 e.symm
    simp [assocGet, h1, ih h.2]

theorem forLoop_succ {σ : Type} (n : Nat) (body : Nat → σ → σ) (s : σ) :
    forLoop (n + 1) body s = body n (forLoop n body s) := rfl

theorem forLoopM_succ {σ : Type} (n : Nat) (body : Nat → σ → Option σ) (s : σ) :
    forLoopM (n + 1) body s = (forLoopM n body s).bind (body n) := rfl

/-! ## The interface state -/

section InterfaceLemmas

variable {R P : Type}

theorem getOutputAttr_setAttr_self (i : GeolibCookInterface R P) (name : String)
    (v : Attribute R) : (i.setAttr name v).getOutputAttr name = v := by
  simp [GeolibCookInterface.setAttr, GeolibCookInterface.getOutputAttr, assocGet_assocSet_self]

theorem getOutputAttr_setAttr_ne (i : GeolibCookInterface R P) (name other : String)
    (v : Attribute R) (h : other ≠ name) :
    (i.setAttr name v).getOutputAttr other = i.getOutputAttr other := by
  simp [GeolibCookInterface.setAttr, GeolibCookInterface.getOutputAttr,
    assocGet_assocSet_ne _ _ _ _ h]

theorem getOutputAttr_log (i : GeolibCookInterface R P) (c : Call R P) (name : String) :
    (i.log c).getOutputAttr name = i.getOutputAttr name := rfl

end InterfaceLemmas

/-! ## Terminal outcome: no samples -/

section NoSamples

variable {R P : Type} [DecidableEq R] [Add R] [Zero R]

/-- C1. When the transform computer reports a produced-sample count of 0, the
op returns normally and its calls are exactly: the transform computation, then
`setAttr("type", "error")`, then `setAttr("errorMessage", ...)` with the fixed
diagnostic. Afterwards `type` and `errorMessage` read back these values and
every other output attribute is as it was. The log holds no reader call, no
other attribute write, no skip-children write, no child and no final build. -/
theorem PointInstancerOp_no_samples (env : Collaborators R P) (privateData : PrivateData R P)
    (interface : GeolibCookInterface R P)
    (h0 : (env.ComputeInstanceTransformsAtTime privateData.usdPrim
            (computeSampleTimes privateData.currentTime privateData.motionSampleTimes)
            privateData.currentTime).2 = 0) :
    ∃ out, PointInstancerOp env privateData interface = Except.ok out ∧
      out.calls = interface.calls ++
        [Call.computeInstanceTransformsAtTime privateData.usdPrim
            (computeSampleTimes privateData.currentTime privateData.motionSampleTimes)
            privateData.currentTime,
         Call.setAttr "type" (Attribute.string "error"),
         Call.setAttr "errorMessage" (Attribute.string
            "Could not compute sample/topology-invarying instance transform matrix")] ∧
      out.getOutputAttr "type" = Attribute.string "error" ∧
      out.getOutputAttr "errorMessage" = Attribute.string
        "Could not compute sample/topology-invarying instance transform matrix" ∧
      (∀ name, name ≠ "type" → name ≠ "errorMessage" →
        out.getOutputAttr name = interface.getOutputAttr name) := by
  refine ⟨((interface.log (Call.computeInstanceTransformsAtTime privateData.usdPrim
      (computeSampleTimes privateData.currentTime privateData.motionSampleTimes)
      privateData.currentTime)).setAttr "type" (Attribute.string "error")).setAttr
      "errorMessage" (Attribute.string noSamplesMessage), ?_, ?_, ?_, ?_, ?_⟩
  · simp only [PointInstancerOp, h0, if_true]
  · simp [GeolibCookInterface.setAttr, GeolibCookInterface.log, noSamplesMessage]
  · rw [getOutputAttr_setAttr_ne _ _ _ _ (by decide), getOutputAttr_setAttr_self]
  · rw [getOutputAttr_setAttr_self]; rfl
  · intro name h1 h2
    rw [getOutputAttr_setAttr_ne _ _ _ _ h2, getOutputAttr_setAttr_ne _ _ _ _ h1,
      getOutputAttr_log]

end NoSamples

/-! ## Calls made by the interface helpers -/

section CallLemmas

variable {R P : Type}

theorem take_succ_of_lt {α : Type} (l : List α) (n : Nat) (h : n < l.length) :
    l.take (n + 1) = l.take n ++ [l[n]] := by
  rw [List.take_succ, List.getElem?_eq_getElem h]; rfl

theorem foldl_setAttr_calls (cs : List (String × Attribute R)) (i : GeolibCookInterface R P) :
    (cs.foldl (fun i c => i.setAttr c.1 c.2) i).calls =
      i.calls ++ cs.map (fun c => Call.setAttr c.1 c.2) := by
  induction cs generalizing i with
  | nil => simp
  | cons c cs ih =>
    simp only [List.foldl_cons, ih, List.map_cons]
    simp [GeolibCookInterface.setAttr]

theorem foldl_setAttr_opArg (cs : List (String × Attribute R)) (i : GeolibCookInterface R P) :
    (cs.foldl (fun i c => i.setAttr c.1 c.2) i).opArg = i.opArg := by
  induction cs generalizing i with
  | nil => simp
  | cons c cs ih =>
    simp only [List.foldl_cons, ih]
    simp [GeolibCookInterface.setAttr]

theorem toInterface_calls (m : PxrUsdKatanaAttrMap R) (i : GeolibCookInterface R P) :
    (m.toInterface i).calls = i.calls ++ m.build.children.map (fun c => Call.setAttr c.1 c.2) :=
  foldl_setAttr_calls _ _

theorem toInterface_opArg (m : PxrUsdKatanaAttrMap R) (i : GeolibCookInterface R P) :
    (m.toInterface i).opArg = i.opArg :=
  foldl_setAttr_opArg _ _

theorem createLoop_spec (privateData : PrivateData R P) (childAttrs : Attribute R)
    (i : GeolibCookInterface R P) (n : Nat) (hn : n ≤ childAttrs.children.length) :
    (forLoop n
      (fun k interface =>
        interface.createChild (childAttrs.getChildName k) "PxrUsdIn.BuildIntermediate"
          (((GroupBuilder.new.update interface.opArg).set "staticScene"
              (childAttrs.getChildByIndex k)).build)
          false privateData.usdInArgs.rootPrim) i).calls =
        i.calls ++ (childAttrs.children.take n).map
          (sourceChildCall privateData.usdInArgs.rootPrim i.opArg) ∧
    (forLoop n
      (fun k interface =>
        interface.createChild (childAttrs.getChildName k) "PxrUsdIn.BuildIntermediate"
          (((GroupBuilder.new.update interface.opArg).set "staticScene"
              (childAttrs.getChildByIndex k)).build)
          false privateData.usdInArgs.rootPrim) i).opArg = i.opArg ∧
    (forLoop n
      (fun k interface =>
        interface.createChild (childAttrs.getChildName k) "PxrUsdIn.BuildIntermediate"
          (((GroupBuilder.new.update interface.opArg).set "staticScene"
              (childAttrs.getChildByIndex k)).build)
          false privateData.usdInArgs.rootPrim) i).outputAttrs = i.outputAttrs := by
  induction n with
  | zero => simp [forLoop]
  | succ k ih =>
    have hk : k < childAttrs.children.length := hn
    obtain ⟨h1, h2, h3⟩ := ih (Nat.le_of_lt hk)
    rw [forLoop_succ]
    generalize forLoop k _ i = st at h1 h2 h3 ⊢
    refine ⟨?_, ?_, ?_⟩
    · simp only [GeolibCookInterface.createChild, GeolibCookInterface.log, h1, h2,
        take_succ_of_lt _ _ hk, List.map_append, List.map_cons, List.map_nil,
        List.append_assoc]
      simp [sourceChildCall, Attribute.getChildName, Attribute.getChildByIndex,
        List.getElem?_eq_getElem hk]
    · simpa [GeolibCookInterface.createChild, GeolibCookInterface.log] using h2
    · simpa [GeolibCookInterface.createChild, GeolibCookInterface.log] using h3

theorem createSourceChildren_calls (privateData : PrivateData R P) (childAttrs : Attribute R)
    (i : GeolibCookInterface R P) :
    (createSourceChildren privateData childAttrs i).calls =
      i.calls ++ childAttrs.children.map
        (sourceChildCall privateData.usdInArgs.rootPrim i.opArg) := by
  have h := (createLoop_spec privateData childAttrs i childAttrs.children.length
    (Nat.le_refl _)).1
  rw [List.take_length] at h
  exact h

theorem createSourceChildren_outputAttrs (privateData : PrivateData R P)
    (childAttrs : Attribute R) (i : GeolibCookInterface R P) :
    (createSourceChildren privateData childAttrs i).outputAttrs = i.outputAttrs :=
  (createLoop_spec privateData childAttrs i childAttrs.children.length (Nat.le_refl _)).2.2

end CallLemmas

/-! ## The op after the call to the reader -/

section AfterReader

variable {R P : Type} [DecidableEq R] [Add R] [Zero R]

theorem PointInstancerOp_after_reader (env : Collaborators R P) (privateData : PrivateData R P)
    (interface : GeolibCookInterface R P) (instanceMatrix : Attribute R)
    (hn : (computeXforms env privateData).2 ≠ 0)
    (hm : buildInstanceMatrix env privateData (computeXforms env privateData).1
      (computeXforms env privateData).2 = some instanceMatrix) :
    PointInstancerOp env privateData interface =
      if typeIsError (afterInstancerMap env privateData interface instanceMatrix) = true then
        Except.ok (afterInstancerMap env privateData interface instanceMatrix)
      else
        if (!(readerMaps env privateData interface instanceMatrix).sourcesAttrMap.build.isValid
            || !(readerMaps env privateData interface instanceMatrix).instancesAttrMap.build.isValid)
            = true then
          Except.ok (((afterInstancerMap env privateData interface instanceMatrix).log
            (Call.buildAttrMap "sourcesAttrMap")).log (Call.buildAttrMap "instancesAttrMap"))
        else
          Except.ok ((createSourceChildren privateData
            ((readerMaps env privateData interface instanceMatrix).sourcesAttrMap.build.getChildByName "c")
            ((((afterInstancerMap env privateData interface instanceMatrix).log
              (Call.buildAttrMap "sourcesAttrMap")).log (Call.buildAttrMap "instancesAttrMap")).setAttr
              "__UsdIn.skipAllChildren" (Attribute.int 1))).execOp "StaticSceneCreate"
            (readerMaps env privateData interface instanceMatrix).instancesAttrMap.build) := by
  unfold computeXforms at hn hm
  simp only [PointInstancerOp, hn, hm, if_false, typeIsError, afterInstancerMap, readerMaps,
    readerInput, computeCall, decide_eq_true_eq]

end AfterReader

section AfterInstancerMap

variable {R P : Type}

theorem getChildByName_set_self (b : GroupBuilder R) (name : String) (v : Attribute R) :
    (b.set name v).build.getChildByName name = v := by
  simp [GroupBuilder.set, GroupBuilder.build, Attribute.getChildByName, Attribute.children,
    assocGet_assocSet_self]

theorem getChildByName_set_ne (b : GroupBuilder R) (name other : String) (v : Attribute R)
    (h : other ≠ name) :
    (b.set name v).build.getChildByName other = b.build.getChildByName other := by
  simp [GroupBuilder.set, GroupBuilder.build, Attribute.getChildByName, Attribute.children,
    assocGet_assocSet_ne _ _ _ _ h]

theorem foldl_set_entries (cs : List (String × Attribute R)) (b : GroupBuilder R)
    (hnd : (b.entries.map Prod.fst ++ cs.map Prod.fst).Nodup) :
    (cs.foldl (fun acc c => acc.set c.1 c.2) b).entries = b.entries ++ cs := by
  induction cs generalizing b with
  | nil => simp
  | cons c cs ih =>
    have hc : c.1 ∉ b.entries.map Prod.fst := by
      intro hmem
      rw [List.nodup_append] at hnd
      exact hnd.2.2 hmem (by simp)
    have hset : (b.set c.1 c.2).entries = b.entries ++ [c] := by
      simp [GroupBuilder.set, assocSet_not_mem _ _ _ hc]
    have hnd2 : (((b.set c.1 c.2).entries).map Prod.fst ++ cs.map Prod.fst).Nodup := by
      rw [hset]
      simpa using hnd
    rw [List.foldl_cons, ih _ hnd2, hset]
    simp

theorem update_new_build (g : Attribute R) (hnd : (g.children.map Prod.fst).Nodup) :
    ((GroupBuilder.new (R := R)).update g).build = Attribute.group g.children := by
  have h := foldl_set_entries g.children (GroupBuilder.new (R := R))
    (by simpa [GroupBuilder.new] using hnd)
  simpa [GroupBuilder.update, GroupBuilder.build, GroupBuilder.new] using h

theorem toInterface_outputAttrs (m : PxrUsdKatanaAttrMap R) (i : GeolibCookInterface R P) :
    (m.toInterface i).outputAttrs =
      m.build.children.foldl (fun acc c => assocSet c.1 c.2 acc) i.outputAttrs := by
  unfold PxrUsdKatanaAttrMap.toInterface
  generalize m.build.children = cs
  induction cs generalizing i with
  | nil => simp
  | cons c cs ih =>
    simp only [List.foldl_cons, ih]
    simp [GeolibCookInterface.setAttr]

variable [Add R] [Zero R]

theorem afterInstancerMap_calls (env : Collaborators R P) (privateData : PrivateData R P)
    (interface : GeolibCookInterface R P) (instanceMatrix : Attribute R) :
    (afterInstancerMap env privateData interface instanceMatrix).calls =
      interface.calls ++
        [computeCall privateData,
         Call.readPointInstancer privateData.usdPrim
           (readerInput interface instanceMatrix).build] ++
        (readerMaps env privateData interface instanceMatrix).instancerAttrMap.build.children.map
          (fun c => Call.setAttr c.1 c.2) := by
  simp [afterInstancerMap, toInterface_calls, GeolibCookInterface.log]

theorem afterInstancerMap_outputAttrs (env : Collaborators R P) (privateData : PrivateData R P)
    (interface : GeolibCookInterface R P) (instanceMatrix : Attribute R) :
    (afterInstancerMap env privateData interface instanceMatrix).outputAttrs =
      (readerMaps env privateData interface instanceMatrix).instancerAttrMap.build.children.foldl
        (fun acc c => assocSet c.1 c.2 acc) interface.outputAttrs := by
  simp [afterInstancerMap, toInterface_outputAttrs, GeolibCookInterface.log]

theorem afterInstancerMap_opArg (env : Collaborators R P) (privateData : PrivateData R P)
    (interface : GeolibCookInterface R P) (instanceMatrix : Attribute R) :
    (afterInstancerMap env privateData interface instanceMatrix).opArg = interface.opArg := by
  simp [afterInstancerMap, toInterface_opArg, GeolibCookInterface.log]

end AfterInstancerMap

section Outcomes

variable {R P : Type} [DecidableEq R] [Add R] [Zero R]

/-- C3. With a non-zero produced-sample count and a flattening that stays in
range, if the interface's `type` attribute reads "error" once the reader's
instancer map has been sent to the interface, the op returns at once. Its
calls are exactly: the transform computation, the reader, and one `setAttr` per
top-level entry of the instancer map, in order; the output attributes are the
initial ones overwritten by these entries. No map is built, no skip-children
attribute is written, no child is created and no final build is executed. -/
theorem PointInstancerOp_reader_error (env : Collaborators R P)
    (privateData : PrivateData R P) (interface : GeolibCookInterface R P)
    (instanceMatrix : Attribute R)
    (hn : (computeXforms env privateData).2 ≠ 0)
    (hm : buildInstanceMatrix env privateData (computeXforms env privateData).1
      (computeXforms env privateData).2 = some instanceMatrix)
    (herr : ((afterInstancerMap env privateData interface instanceMatrix).getOutputAttr
      "type").getStringValue "" = "error") :
    ∃ out, PointInstancerOp env privateData interface = Except.ok out ∧
      out.calls = interface.calls ++
        [Call.computeInstanceTransformsAtTime privateData.usdPrim
            (computeSampleTimes privateData.currentTime privateData.motionSampleTimes)
            privateData.currentTime,
         Call.readPointInstancer privateData.usdPrim
            (readerInput interface instanceMatrix).build] ++
        (readerMaps env privateData interface instanceMatrix).instancerAttrMap.build.children.map
          (fun c => Call.setAttr c.1 c.2) ∧
      out.outputAttrs =
        (readerMaps env privateData interface instanceMatrix).instancerAttrMap.build.children.foldl
          (fun acc c => assocSet c.1 c.2 acc) interface.outputAttrs := by
  refine ⟨afterInstancerMap env privateData interface instanceMatrix, ?_, ?_, ?_⟩
  · rw [PointInstancerOp_after_reader env privateData interface instanceMatrix hn hm]
    have h : typeIsError (afterInstancerMap env privateData interface instanceMatrix) = true := by
      simp [typeIsError, herr]
    simp [h]
  · exact afterInstancerMap_calls env privateData interface instanceMatrix
  · exact afterInstancerMap_outputAttrs env privateData interface instanceMatrix

/-- C4. With a non-zero produced-sample count, a flattening that stays in
range and no error read back after the instancer map was sent, if the sources
build or the instances build is invalid the op returns normally and silently:
its calls are exactly the transform computation, the reader, one `setAttr` per
top-level entry of the instancer map, and the two builds. It writes no other
attribute (no `type` or `errorMessage` of its own, no skip-children
attribute), creates no child and executes no final build; the output
attributes are the initial ones overwritten by the instancer map's entries. -/
theorem PointInstancerOp_invalid_build (env : Collaborators R P)
    (privateData : PrivateData R P) (interface : GeolibCookInterface R P)
    (instanceMatrix : Attribute R)
    (hn : (computeXforms env privateData).2 ≠ 0)
    (hm : buildInstanceMatrix env privateData (computeXforms env privateData).1
      (computeXforms env privateData).2 = some instanceMatrix)
    (hok : ((afterInstancerMap env privateData interface instanceMatrix).getOutputAttr
      "type").getStringValue "" ≠ "error")
    (hinv : (readerMaps env privateData interface instanceMatrix).sourcesAttrMap.build.isValid
        = false ∨
      (readerMaps env privateData interface instanceMatrix).instancesAttrMap.build.isValid
        = false) :
    ∃ out, PointInstancerOp env privateData interface = Except.ok out ∧
      out.calls = interface.calls ++
        [Call.computeInstanceTransformsAtTime privateData.usdPrim
            (computeSampleTimes privateData.currentTime privateData.motionSampleTimes)
            privateData.currentTime,
         Call.readPointInstancer privateData.usdPrim
            (readerInput interface instanceMatrix).build] ++
        (readerMaps env privateData interface instanceMatrix).instancerAttrMap.build.children.map
          (fun c => Call.setAttr c.1 c.2) ++
        [Call.buildAttrMap "sourcesAttrMap", Call.buildAttrMap "instancesAttrMap"] ∧
      out.outputAttrs =
        (readerMaps env privateData interface instanceMatrix).instancerAttrMap.build.children.foldl
          (fun acc c => assocSet c.1 c.2 acc) interface.outputAttrs := by
  refine ⟨((afterInstancerMap env privateData interface instanceMatrix).log
      (Call.buildAttrMap "sourcesAttrMap")).log (Call.buildAttrMap "instancesAttrMap"),
    ?_, ?_, ?_⟩
  · rw [PointInstancerOp_after_reader env privateData interface instanceMatrix hn hm]
    have h : typeIsError (afterInstancerMap env privateData interface instanceMatrix) = false := by
      simp [typeIsError, hok]
    rcases hinv with h2 | h2 <;> simp [h, h2]
  · simp [GeolibCookInterface.log, afterInstancerMap_calls, computeCall]
  · simp [GeolibCookInterface.log, afterInstancerMap_outputAttrs]

/-- C2. With a non-zero produced-sample count, a flattening that stays in
range, a `type` attribute that does not read "error" once the instancer map
has been sent, and valid sources and instances builds, the op returns normally
and what it does after sending the instancer map is, in order: the two builds;
one write of the skip-children attribute; for each entry of the sources
build's group `c`, in index order, one `createChild` of op type
`PxrUsdIn.BuildIntermediate` named after the entry, whose arguments are the
op's own arguments with `staticScene` set to the entry's subtree; then one
`execOp("StaticSceneCreate")` fed the instances build. In the arguments of
each child `staticScene` reads back the entry's subtree and every other name
reads as in the op's own arguments. The number of children created is the
number of entries of `c` plus one. -/
theorem PointInstancerOp_emits_children (env : Collaborators R P)
    (privateData : PrivateData R P) (interface : GeolibCookInterface R P)
    (instanceMatrix : Attribute R)
    (hn : (computeXforms env privateData).2 ≠ 0)
    (hm : buildInstanceMatrix env privateData (computeXforms env privateData).1
      (computeXforms env privateData).2 = some instanceMatrix)
    (hok : ((afterInstancerMap env privateData interface instanceMatrix).getOutputAttr
      "type").getStringValue "" ≠ "error")
    (hs : (readerMaps env privateData interface instanceMatrix).sourcesAttrMap.build.isValid
      = true)
    (hi : (readerMaps env privateData interface instanceMatrix).instancesAttrMap.build.isValid
      = true) :
    ∃ out emitted, PointInstancerOp env privateData interface = Except.ok out ∧
      out.calls = (afterInstancerMap env privateData interface instanceMatrix).calls ++
        [Call.buildAttrMap "sourcesAttrMap", Call.buildAttrMap "instancesAttrMap"] ++
        emitted ∧
      emitted = [Call.setAttr "__UsdIn.skipAllChildren" (Attribute.int 1)] ++
        (((readerMaps env privateData interface instanceMatrix).sourcesAttrMap.build.getChildByName
            "c").children.map
          (fun c => Call.createChild c.1 "PxrUsdIn.BuildIntermediate"
            (((GroupBuilder.new.update interface.opArg).set "staticScene" c.2).build)
            false privateData.usdInArgs.rootPrim)) ++
        [Call.execOp "StaticSceneCreate"
          (readerMaps env privateData interface instanceMatrix).instancesAttrMap.build] ∧
      (∀ c : String × Attribute R,
        (((GroupBuilder.new.update interface.opArg).set "staticScene" c.2).build).getChildByName
          "staticScene" = c.2 ∧
        ∀ name, name ≠ "staticScene" → (interface.opArg.children.map Prod.fst).Nodup →
          (((GroupBuilder.new.update interface.opArg).set "staticScene"
            c.2).build).getChildByName name = interface.opArg.getChildByName name) ∧
      emitted.countP Call.createsChild =
        ((readerMaps env privateData interface instanceMatrix).sourcesAttrMap.build.getChildByName
          "c").children.length + 1 := by
  refine ⟨(createSourceChildren privateData
      ((readerMaps env privateData interface instanceMatrix).sourcesAttrMap.build.getChildByName
        "c")
      ((((afterInstancerMap env privateData interface instanceMatrix).log
        (Call.buildAttrMap "sourcesAttrMap")).log (Call.buildAttrMap "instancesAttrMap")).setAttr
        "__UsdIn.skipAllChildren" (Attribute.int 1))).execOp "StaticSceneCreate"
      (readerMaps env privateData interface instanceMatrix).instancesAttrMap.build,
    _, ?_, ?_, rfl, ?_, ?_⟩
  · rw [PointInstancerOp_after_reader env privateData interface instanceMatrix hn hm]
    have h : typeIsError (afterInstancerMap env privateData interface instanceMatrix) = false := by
      simp [typeIsError, hok]
    simp only [h, hs, hi]
    rfl
  · simp [GeolibCookInterface.execOp, GeolibCookInterface.log, createSourceChildren_calls,
      GeolibCookInterface.setAttr, afterInstancerMap_opArg, sourceChildCall]
  · intro c
    refine ⟨getChildByName_set_self _ _ _, ?_⟩
    intro name hne hnd
    rw [getChildByName_set_ne _ _ _ _ hne, update_new_build _ hnd]
    simp [Attribute.getChildByName, Attribute.children]
  · simp [List.countP_append, List.countP_cons, Call.createsChild, List.countP_map,
      Function.comp_def]

/-- C10, as amended. On the child-emitting path (non-zero produced-sample
count, flattening in range, no error read back, valid sources and instances
builds), when the sources build's child `c` is absent or not a valid group no
`createChild` call is made, but the skip-children attribute is still written
and the final `StaticSceneCreate` build is still executed, exactly as when `c`
is a valid empty group. -/
theorem PointInstancerOp_no_source_group (env : Collaborators R P)
    (privateData : PrivateData R P) (interface : GeolibCookInterface R P)
    (instanceMatrix : Attribute R)
    (hn : (computeXforms env privateData).2 ≠ 0)
    (hm : buildInstanceMatrix env privateData (computeXforms env privateData).1
      (computeXforms env privateData).2 = some instanceMatrix)
    (hok : ((afterInstancerMap env privateData interface instanceMatrix).getOutputAttr
      "type").getStringValue "" ≠ "error")
    (hs : (readerMaps env privateData interface instanceMatrix).sourcesAttrMap.build.isValid
      = true)
    (hi : (readerMaps env privateData interface instanceMatrix).instancesAttrMap.build.isValid
      = true)
    (hc : ((readerMaps env privateData interface instanceMatrix).sourcesAttrMap.build.getChildByName
        "c").isValid = false ∨
      (readerMaps env privateData interface instanceMatrix).sourcesAttrMap.build.getChildByName
        "c" = Attribute.group []) :
    ∃ out, PointInstancerOp env privateData interface = Except.ok out ∧
      out.calls = (afterInstancerMap env privateData interface instanceMatrix).calls ++
        [Call.buildAttrMap "sourcesAttrMap", Call.buildAttrMap "instancesAttrMap",
         Call.setAttr "__UsdIn.skipAllChildren" (Attribute.int 1),
         Call.execOp "StaticSceneCreate"
          (readerMaps env privateData interface instanceMatrix).instancesAttrMap.build] := by
  have hch : ((readerMaps env privateData interface instanceMatrix).sourcesAttrMap.build.getChildByName
      "c").children = [] := by
    rcases hc with h | h
    · generalize (readerMaps env privateData interface
        instanceMatrix).sourcesAttrMap.build.getChildByName "c" = a at h
      cases a <;> simp [Attribute.children, Attribute.isValid] at h ⊢
    · rw [h]; rfl
  refine ⟨(createSourceChildren privateData
      ((readerMaps env privateData interface instanceMatrix).sourcesAttrMap.build.getChildByName
        "c")
      ((((afterInstancerMap env privateData interface instanceMatrix).log
        (Call.buildAttrMap "sourcesAttrMap")).log (Call.buildAttrMap "instancesAttrMap")).setAttr
        "__UsdIn.skipAllChildren" (Attribute.int 1))).execOp "StaticSceneCreate"
      (readerMaps env privateData interface instanceMatrix).instancesAttrMap.build, ?_, ?_⟩
  · rw [PointInstancerOp_after_reader env privateData interface instanceMatrix hn hm]
    have h : typeIsError (afterInstancerMap env privateData interface instanceMatrix) = false := by
      simp [typeIsError, hok]
    simp only [h, hs, hi]
    rfl
  · simp [GeolibCookInterface.execOp, GeolibCookInterface.log, createSourceChildren_calls,
      GeolibCookInterface.setAttr, hch]

end Outcomes

/-! ## The outcomes on the concrete inputs -/

section OutcomeInstances

theorem exInterface_type_ne_error (maps : ReaderMaps Int)
    (h : maps.instancerAttrMap = exMapsOk.instancerAttrMap) :
    ((afterInstancerMap (exEnv 2 maps) (exPrivateData false) exInterface
      exInstanceMatrix).getOutputAttr "type").getStringValue "" ≠ "error" := by
  have e : ((afterInstancerMap (exEnv 2 maps) (exPrivateData false) exInterface
      exInstanceMatrix).getOutputAttr "type").getStringValue "" = "usd point instancer" := by
    simp only [afterInstancerMap, readerMaps, exEnv, h]
    rfl
  rw [e]
  decide

theorem exEnv_produced (maps : ReaderMaps Int) :
    (computeXforms (exEnv 2 maps) (exPrivateData false)).2 ≠ 0 :=
  fun h => Nat.succ_ne_zero 1 h

theorem exEnv_instanceMatrix_ok :
    buildInstanceMatrix (exEnv 2 exMapsOk) (exPrivateData false)
      (computeXforms (exEnv 2 exMapsOk) (exPrivateData false)).1
      (computeXforms (exEnv 2 exMapsOk) (exPrivateData false)).2 = some exInstanceMatrix :=
  rfl

theorem buildInstanceMatrix_congr {R P : Type} [DecidableEq R] (env env2 : Collaborators R P)
    (privateData : PrivateData R P) (xformSamples : List (List (GfMatrix4d R))) (n : Nat)
    (h : env.ReverseTimeSample = env2.ReverseTimeSample) :
    buildInstanceMatrix env privateData xformSamples n =
      buildInstanceMatrix env2 privateData xformSamples n := by
  simp only [buildInstanceMatrix, flattenSample, timeKey, h]

theorem exEnv_instanceMatrix (maps : ReaderMaps Int) :
    buildInstanceMatrix (exEnv 2 maps) (exPrivateData false)
      (computeXforms (exEnv 2 maps) (exPrivateData false)).1
      (computeXforms (exEnv 2 maps) (exPrivateData false)).2 = some exInstanceMatrix :=
  (buildInstanceMatrix_congr (exEnv 2 maps) (exEnv 2 exMapsOk) _ _ _ rfl).trans
    exEnv_instanceMatrix_ok

/-- Instance of C1: the computer reports 0 samples. -/
theorem PointInstancerOp_no_samples_witness :
    (exCompute 0 "/World/instancer" (computeSampleTimes 10 [-1, 1]) 10).2 = 0 ∧
    ∃ out, PointInstancerOp (exEnv 0 exMapsOk) (exPrivateData false) exInterface
        = Except.ok out ∧
      out.calls =
        [Call.computeInstanceTransformsAtTime "/World/instancer" [9, 11] 10,
         Call.setAttr "type" (Attribute.string "error"),
         Call.setAttr "errorMessage" (Attribute.string
            "Could not compute sample/topology-invarying instance transform matrix")] ∧
      out.getOutputAttr "type" = Attribute.string "error" ∧
      out.getOutputAttr "errorMessage" = Attribute.string
        "Could not compute sample/topology-invarying instance transform matrix" ∧
      (∀ name, name ≠ "type" → name ≠ "errorMessage" →
        out.getOutputAttr name = exInterface.getOutputAttr name) :=
  ⟨rfl, PointInstancerOp_no_samples (exEnv 0 exMapsOk) (exPrivateData false) exInterface rfl⟩

/-- Instance of C3: the reader marks the instancer map with an error. -/
theorem PointInstancerOp_reader_error_witness :
    (computeXforms (exEnv 2 exMapsError) (exPrivateData false)).2 ≠ 0 ∧
    buildInstanceMatrix (exEnv 2 exMapsError) (exPrivateData false)
      (computeXforms (exEnv 2 exMapsError) (exPrivateData false)).1
      (computeXforms (exEnv 2 exMapsError) (exPrivateData false)).2 = some exInstanceMatrix ∧
    ((afterInstancerMap (exEnv 2 exMapsError) (exPrivateData false) exInterface
      exInstanceMatrix).getOutputAttr "type").getStringValue "" = "error" ∧
    ∃ out, PointInstancerOp (exEnv 2 exMapsError) (exPrivateData false) exInterface
        = Except.ok out ∧
      out.calls =
        [Call.computeInstanceTransformsAtTime "/World/instancer" [9, 11] 10,
         Call.readPointInstancer "/World/instancer"
           (Attribute.group [("outputLocationPath", Attribute.string "/root/world/geo/instancer"),
             ("instanceMatrix", exInstanceMatrix)]),
         Call.setAttr "type" (Attribute.string "error"),
         Call.setAttr "errorMessage" (Attribute.string "no prototypes")] ∧
      out.outputAttrs = [("type", Attribute.string "error"),
        ("errorMessage", Attribute.string "no prototypes")] :=
  ⟨exEnv_produced _, exEnv_instanceMatrix _, rfl,
    PointInstancerOp_reader_error (exEnv 2 exMapsError) (exPrivateData false) exInterface
      exInstanceMatrix (exEnv_produced _) (exEnv_instanceMatrix _) rfl⟩

/-- Instance of C4: the sources map builds to an invalid attribute. -/
theorem PointInstancerOp_invalid_build_witness :
    (computeXforms (exEnv 2 exMapsInvalid) (exPrivateData false)).2 ≠ 0 ∧
    buildInstanceMatrix (exEnv 2 exMapsInvalid) (exPrivateData false)
      (computeXforms (exEnv 2 exMapsInvalid) (exPrivateData false)).1
      (computeXforms (exEnv 2 exMapsInvalid) (exPrivateData false)).2 = some exInstanceMatrix ∧
    ((afterInstancerMap (exEnv 2 exMapsInvalid) (exPrivateData false) exInterface
      exInstanceMatrix).getOutputAttr "type").getStringValue "" ≠ "error" ∧
    (readerMaps (exEnv 2 exMapsInvalid) (exPrivateData false) exInterface
      exInstanceMatrix).sourcesAttrMap.build.isValid = false ∧
    ∃ out, PointInstancerOp (exEnv 2 exMapsInvalid) (exPrivateData false) exInterface
        = Except.ok out ∧
      out.calls =
        [Call.computeInstanceTransformsAtTime "/World/instancer" [9, 11] 10,
         Call.readPointInstancer "/World/instancer"
           (Attribute.group [("outputLocationPath", Attribute.string "/root/world/geo/instancer"),
             ("instanceMatrix", exInstanceMatrix)]),
         Call.setAttr "type" (Attribute.string "usd point instancer"),
         Call.buildAttrMap "sourcesAttrMap", Call.buildAttrMap "instancesAttrMap"] ∧
      out.outputAttrs = [("type", Attribute.string "usd point instancer")] :=
  ⟨exEnv_produced _, exEnv_instanceMatrix _, exInterface_type_ne_error exMapsInvalid rfl, rfl,
    PointInstancerOp_invalid_build (exEnv 2 exMapsInvalid) (exPrivateData false) exInterface
      exInstanceMatrix (exEnv_produced _) (exEnv_instanceMatrix _)
      (exInterface_type_ne_error exMapsInvalid rfl) (Or.inl rfl)⟩

/-- Instance of C2: two prototypes, hence three children. -/
theorem PointInstancerOp_emits_children_witness :
    (computeXforms (exEnv 2 exMapsOk) (exPrivateData false)).2 ≠ 0 ∧
    buildInstanceMatrix (exEnv 2 exMapsOk) (exPrivateData false)
      (computeXforms (exEnv 2 exMapsOk) (exPrivateData false)).1
      (computeXforms (exEnv 2 exMapsOk) (exPrivateData false)).2 = some exInstanceMatrix ∧
    ((afterInstancerMap (exEnv 2 exMapsOk) (exPrivateData false) exInterface
      exInstanceMatrix).getOutputAttr "type").getStringValue "" ≠ "error" ∧
    ∃ out emitted, PointInstancerOp (exEnv 2 exMapsOk) (exPrivateData false) exInterface
        = Except.ok out ∧
      out.calls = (afterInstancerMap (exEnv 2 exMapsOk) (exPrivateData false) exInterface
          exInstanceMatrix).calls ++
        [Call.buildAttrMap "sourcesAttrMap", Call.buildAttrMap "instancesAttrMap"] ++
        emitted ∧
      emitted =
        [Call.setAttr "__UsdIn.skipAllChildren" (Attribute.int 1),
         Call.createChild "protoA" "PxrUsdIn.BuildIntermediate"
           (Attribute.group [("staticScene", Attribute.group [("a", Attribute.int 1)]),
             ("system", Attribute.int 3)]) false "/",
         Call.createChild "protoB" "PxrUsdIn.BuildIntermediate"
           (Attribute.group [("staticScene", Attribute.group [("a", Attribute.int 2)]),
             ("system", Attribute.int 3)]) false "/",
         Call.execOp "StaticSceneCreate" (Attribute.group [("c", Attribute.group
           [("instances", Attribute.group [])])])] ∧
      emitted.countP Call.createsChild = 3 := by
  refine ⟨exEnv_produced _, exEnv_instanceMatrix _, exInterface_type_ne_error exMapsOk rfl, ?_⟩
  obtain ⟨out, emitted, h1, h2, h3, _, h5⟩ :=
    PointInstancerOp_emits_children (exEnv 2 exMapsOk) (exPrivateData false) exInterface
      exInstanceMatrix (exEnv_produced _) (exEnv_instanceMatrix _)
      (exInterface_type_ne_error exMapsOk rfl) rfl rfl
  exact ⟨out, emitted, h1, h2, h3, h5⟩

/-- Instance of C10 as amended: the sources map has no child `c`. -/
theorem PointInstancerOp_no_source_group_witness :
    (readerMaps (exEnv 2 exMapsNoC) (exPrivateData false) exInterface
      exInstanceMatrix).sourcesAttrMap.build.isValid = true ∧
    ((readerMaps (exEnv 2 exMapsNoC) (exPrivateData false) exInterface
      exInstanceMatrix).sourcesAttrMap.build.getChildByName "c").isValid = false ∧
    ∃ out, PointInstancerOp (exEnv 2 exMapsNoC) (exPrivateData false) exInterface
        = Except.ok out ∧
      out.calls = (afterInstancerMap (exEnv 2 exMapsNoC) (exPrivateData false) exInterface
          exInstanceMatrix).calls ++
        [Call.buildAttrMap "sourcesAttrMap", Call.buildAttrMap "instancesAttrMap",
         Call.setAttr "__UsdIn.skipAllChildren" (Attribute.int 1),
         Call.execOp "StaticSceneCreate" (Attribute.group [("c", Attribute.group
           [("instances", Attribute.group [])])])] :=
  ⟨rfl, rfl,
    PointInstancerOp_no_source_group (exEnv 2 exMapsNoC) (exPrivateData false) exInterface
      exInstanceMatrix (exEnv_produced _) (exEnv_instanceMatrix _)
      (exInterface_type_ne_error exMapsNoC rfl) rfl rfl (Or.inl rfl)⟩

/-- C10 fails as stated: with a valid sources map that has no child `c`, the
op still writes the skip-children attribute and still creates the
instance-array child through `StaticSceneCreate`; its calls are those of the
run whose sources map has a valid empty group `c`. -/
theorem PointInstancerOp_no_source_group_still_final :
    exMapsNoC.sourcesAttrMap.build.isValid = true ∧
    (exMapsNoC.sourcesAttrMap.build.getChildByName "c").isValid = false ∧
    (exMapsEmptyC.sourcesAttrMap.build.getChildByName "c").isValid = true ∧
    (finalInterface (PointInstancerOp (exEnv 2 exMapsNoC) (exPrivateData false)
      exInterface)).calls =
      [Call.computeInstanceTransformsAtTime "/World/instancer" [9, 11] 10,
       Call.readPointInstancer "/World/instancer"
         (Attribute.group [("outputLocationPath", Attribute.string "/root/world/geo/instancer"),
           ("instanceMatrix", exInstanceMatrix)]),
       Call.setAttr "type" (Attribute.string "usd point instancer"),
       Call.buildAttrMap "sourcesAttrMap", Call.buildAttrMap "instancesAttrMap",
       Call.setAttr "__UsdIn.skipAllChildren" (Attribute.int 1),
       Call.execOp "StaticSceneCreate" (Attribute.group [("c", Attribute.group
         [("instances", Attribute.group [])])])] ∧
    (finalInterface (PointInstancerOp (exEnv 2 exMapsNoC) (exPrivateData false)
      exInterface)).calls.countP Call.createsChild = 1 ∧
    (finalInterface (PointInstancerOp (exEnv 2 exMapsEmptyC) (exPrivateData false)
      exInterface)).calls =
    (finalInterface (PointInstancerOp (exEnv 2 exMapsNoC) (exPrivateData false)
      exInterface)).calls := by
  have hNoC : PointInstancerOp (exEnv 2 exMapsNoC) (exPrivateData false) exInterface =
      Except.ok ((((((afterInstancerMap (exEnv 2 exMapsNoC) (exPrivateData false) exInterface
        exInstanceMatrix).log (Call.buildAttrMap "sourcesAttrMap")).log
        (Call.buildAttrMap "instancesAttrMap")).setAttr "__UsdIn.skipAllChildren"
        (Attribute.int 1))).execOp "StaticSceneCreate" exMapsNoC.instancesAttrMap.build) := by
    rw [PointInstancerOp_after_reader _ _ _ _ (exEnv_produced _) (exEnv_instanceMatrix _)]
    have h : typeIsError (afterInstancerMap (exEnv 2 exMapsNoC) (exPrivateData false)
        exInterface exInstanceMatrix) = false := by
      simp [typeIsError, exInterface_type_ne_error exMapsNoC rfl]
    rw [h]
    rfl
  have hEmpty : PointInstancerOp (exEnv 2 exMapsEmptyC) (exPrivateData false) exInterface =
      Except.ok ((((((afterInstancerMap (exEnv 2 exMapsEmptyC) (exPrivateData false) exInterface
        exInstanceMatrix).log (Call.buildAttrMap "sourcesAttrMap")).log
        (Call.buildAttrMap "instancesAttrMap")).setAttr "__UsdIn.skipAllChildren"
        (Attribute.int 1))).execOp "StaticSceneCreate" exMapsEmptyC.instancesAttrMap.build) := by
    rw [PointInstancerOp_after_reader _ _ _ _ (exEnv_produced _) (exEnv_instanceMatrix _)]
    have h : typeIsError (afterInstancerMap (exEnv 2 exMapsEmptyC) (exPrivateData false)
        exInterface exInstanceMatrix) = false := by
      simp [typeIsError, exInterface_type_ne_error exMapsEmptyC rfl]
    rw [h]
    rfl
  refine ⟨rfl, rfl, rfl, ?_, ?_, ?_⟩
  · rw [hNoC]; rfl
  · rw [hNoC]; rfl
  · rw [hNoC, hEmpty]; rfl

end OutcomeInstances

/-! ## Sampling instants -/

section SampleTimes

variable {R P : Type} [Add R] [Zero R]

theorem sampleTimes_loop (currentTime : R) (motionSampleTimes : List R) (n : Nat)
    (hn : n ≤ motionSampleTimes.length) :
    (forLoop n
      (fun a sampleTimes =>
        match motionSampleTimes[a]? with
        | some t => sampleTimes.set a (currentTime + t)
        | none => sampleTimes)
      (List.replicate motionSampleTimes.length 0)).length = motionSampleTimes.length ∧
    ∀ k, (forLoop n
      (fun a sampleTimes =>
        match motionSampleTimes[a]? with
        | some t => sampleTimes.set a (currentTime + t)
        | none => sampleTimes)
      (List.replicate motionSampleTimes.length 0))[k]? =
      if k < n then motionSampleTimes[k]?.map (fun t => currentTime + t)
      else (List.replicate motionSampleTimes.length (0 : R))[k]? := by
  induction n with
  | zero => simp [forLoop]
  | succ a ih =>
    have ha : a < motionSampleTimes.length := hn
    obtain ⟨hlen, hget⟩ := ih (Nat.le_of_lt ha)
    rw [forLoop_succ]
    generalize forLoop a _ (List.replicate motionSampleTimes.length 0) = st at hlen hget ⊢
    simp only [List.getElem?_eq_getElem ha]
    refine ⟨by simp [hlen], ?_⟩
    intro k
    rw [List.getElem?_set]
    by_cases hk : a = k
    · subst hk
      simp [hlen, ha]
    · rw [if_neg hk, hget k]
      by_cases hlt : k < a
      · have : k < a + 1 := by omega
        simp [hlt, this]
      · have : ¬ k < a + 1 := by omega
        simp [hlt, this]

theorem computeSampleTimes_eq_map (currentTime : R) (motionSampleTimes : List R) :
    computeSampleTimes currentTime motionSampleTimes =
      motionSampleTimes.map (fun t => currentTime + t) := by
  apply List.ext_getElem?
  intro k
  have h := (sampleTimes_loop currentTime motionSampleTimes motionSampleTimes.length
    (Nat.le_refl _)).2 k
  unfold computeSampleTimes
  simp only [] at h ⊢
  rw [h]
  by_cases hk : k < motionSampleTimes.length
  · simp [hk]
  · have hle : motionSampleTimes.length ≤ k := Nat.le_of_not_lt hk
    rw [if_neg hk, List.getElem?_map, List.getElem?_eq_none hle, List.getElem?_replicate,
      if_neg hk]
    rfl

end SampleTimes

section ComputerCall

variable {R P : Type} [DecidableEq R] [Add R] [Zero R]

theorem PointInstancerOp_calls_prefix (env : Collaborators R P) (privateData : PrivateData R P)
    (interface : GeolibCookInterface R P) :
    ∃ rest, (finalInterface (PointInstancerOp env privateData interface)).calls =
      interface.calls ++ computeCall privateData :: rest := by
  by_cases hn : (computeXforms env privateData).2 = 0
  · refine ⟨[Call.setAttr "type" (Attribute.string "error"),
      Call.setAttr "errorMessage" (Attribute.string noSamplesMessage)], ?_⟩
    unfold computeXforms at hn
    simp only [PointInstancerOp, hn, if_true, finalInterface]
    simp [GeolibCookInterface.setAttr, GeolibCookInterface.log, computeCall]
  · cases hm : buildInstanceMatrix env privateData (computeXforms env privateData).1
        (computeXforms env privateData).2 with
    | none =>
      refine ⟨[], ?_⟩
      unfold computeXforms at hn hm
      simp only [PointInstancerOp, hn, hm, if_false, finalInterface]
      simp [GeolibCookInterface.log, computeCall]
    | some instanceMatrix =>
      rw [PointInstancerOp_after_reader env privateData interface instanceMatrix hn hm]
      split
      · exact ⟨_, by simp only [finalInterface, afterInstancerMap_calls, List.append_assoc,
          List.cons_append, List.nil_append]; rfl⟩
      · split
        · exact ⟨_, by simp only [finalInterface, GeolibCookInterface.log,
            afterInstancerMap_calls, List.append_assoc, List.cons_append, List.nil_append]; rfl⟩
        · exact ⟨_, by simp only [finalInterface, GeolibCookInterface.execOp,
            GeolibCookInterface.log, createSourceChildren_calls, GeolibCookInterface.setAttr,
            afterInstancerMap_calls, List.append_assoc, List.cons_append, List.nil_append]; rfl⟩

/-- C8. The list of absolute time codes handed to the transform computer has
the length of the offset list and its k-th element is the current time plus
the k-th offset, in the same order; the default time code handed over is the
current time. In every run, whatever the backward-motion flag, the first call
the op makes is the transform computation with exactly these arguments. -/
theorem sampleTimes_passed_to_computer (env : Collaborators R P)
    (privateData : PrivateData R P) (interface : GeolibCookInterface R P) (backward : Bool) :
    (computeSampleTimes privateData.currentTime privateData.motionSampleTimes).length =
      privateData.motionSampleTimes.length ∧
    (∀ k : Nat, (computeSampleTimes privateData.currentTime privateData.motionSampleTimes)[k]? =
      (privateData.motionSampleTimes[k]?).map (fun offset => privateData.currentTime + offset)) ∧
    ∃ rest, (finalInterface (PointInstancerOp env
        { privateData with isMotionBackward := backward } interface)).calls =
      interface.calls ++
        Call.computeInstanceTransformsAtTime privateData.usdPrim
          (computeSampleTimes privateData.currentTime privateData.motionSampleTimes)
          privateData.currentTime :: rest := by
  refine ⟨?_, ?_, ?_⟩
  · rw [computeSampleTimes_eq_map, List.length_map]
  · intro k
    rw [computeSampleTimes_eq_map, List.getElem?_map]
  · exact PointInstancerOp_calls_prefix env { privateData with isMotionBackward := backward }
      interface

end ComputerCall

/-! ## Flattening the transform samples -/

section Flatten

variable {R P : Type}

theorem push_loop {α : Type} (l : List α) (n : Nat) (hn : n ≤ l.length) (v : List α) :
    forLoopM n
      (fun j matVec =>
        match l[j]? with
        | some x => some (matVec ++ [x])
        | none => none) v = some (v ++ l.take n) := by
  induction n with
  | zero => simp [forLoopM]
  | succ k ih =>
    have hk : k < l.length := hn
    rw [forLoopM_succ, ih (Nat.le_of_lt hk), take_succ_of_lt _ _ hk]
    simp [List.getElem?_eq_getElem hk]

theorem GetArray_length (m : GfMatrix4d R) : m.GetArray.length = 16 := rfl

theorem pushInstance_eq (xformSamples : List (List (GfMatrix4d R))) (a i : Nat)
    (sample : List (GfMatrix4d R)) (m : GfMatrix4d R) (matVec : List R)
    (hs : xformSamples[a]? = some sample) (hi : sample[i]? = some m) :
    pushInstance xformSamples a i matVec = some (matVec ++ m.GetArray) := by
  have h := push_loop m.GetArray 16 (Nat.le_of_eq (GetArray_length m).symm) matVec
  have ht : m.GetArray.take 16 = m.GetArray := List.take_of_length_le (Nat.le_of_eq rfl)
  rw [ht] at h
  simp only [pushInstance, hs, hi]
  exact h

theorem instances_loop (xformSamples : List (List (GfMatrix4d R))) (a n : Nat)
    (sample : List (GfMatrix4d R)) (matVec : List R)
    (hs : xformSamples[a]? = some sample) (hn : n ≤ sample.length) :
    forLoopM n (fun i matVec => pushInstance xformSamples a i matVec) matVec =
      some (matVec ++ (sample.take n).flatMap GfMatrix4d.GetArray) := by
  induction n with
  | zero => simp [forLoopM]
  | succ k ih =>
    have hk : k < sample.length := hn
    rw [forLoopM_succ, ih (Nat.le_of_lt hk), take_succ_of_lt _ _ hk]
    simp only [Option.some_bind]
    rw [pushInstance_eq xformSamples a k sample sample[k] _ hs (List.getElem?_eq_getElem hk),
      List.flatMap_append, List.flatMap_singleton, List.append_assoc]

theorem flat_length (sample : List (GfMatrix4d R)) (n : Nat) (hn : n ≤ sample.length) :
    ((sample.take n).flatMap GfMatrix4d.GetArray).length = 16 * n := by
  induction n with
  | zero => simp
  | succ k ih =>
    have hk : k < sample.length := hn
    rw [take_succ_of_lt _ _ hk, List.flatMap_append, List.length_append, ih (Nat.le_of_lt hk)]
    simp [GetArray_length]
    omega

theorem flat_getElem (sample : List (GfMatrix4d R)) (n i j : Nat) (hn : n ≤ sample.length)
    (hi : i < n) (hj : j < 16) :
    ((sample.take n).flatMap GfMatrix4d.GetArray)[16 * i + j]? =
      (sample[i]?.bind fun m => m.GetArray[j]?) := by
  induction n with
  | zero => omega
  | succ k ih =>
    have hk : k < sample.length := hn
    rw [take_succ_of_lt _ _ hk, List.flatMap_append, List.getElem?_append,
      flat_length sample k (Nat.le_of_lt hk)]
    by_cases hik : i < k
    · have : 16 * i + j < 16 * k := by omega
      rw [if_pos this]
      exact ih (Nat.le_of_lt hk) hik
    · have hik2 : i = k := by omega
      subst hik2
      have : ¬ 16 * i + j < 16 * i := by omega
      rw [if_neg this]
      have e : 16 * i + j - 16 * i = j := by omega
      rw [e]
      simp [List.getElem?_eq_getElem hk]

variable [DecidableEq R]

theorem flattenSample_eq (env : Collaborators R P) (privateData : PrivateData R P)
    (xformSamples : List (List (GfMatrix4d R))) (numInstances a : Nat)
    (bldr : DoubleBuilder R) (t : R) (sample : List (GfMatrix4d R))
    (ht : privateData.motionSampleTimes[a]? = some t)
    (hs : xformSamples[a]? = some sample) (hn : numInstances ≤ sample.length) :
    flattenSample env privateData xformSamples numInstances a bldr =
      some (bldr.put (timeKey env privateData t)
        (bldr.get (timeKey env privateData t) ++
          (sample.take numInstances).flatMap GfMatrix4d.GetArray)) := by
  simp only [flattenSample, ht, instances_loop xformSamples a numInstances sample _ hs hn]

end Flatten

section FlattenAll

variable {R P : Type}

theorem flatData_keys (env : Collaborators R P) (privateData : PrivateData R P)
    (xformSamples : List (List (GfMatrix4d R))) (numInstances n : Nat)
    (hn1 : n ≤ privateData.motionSampleTimes.length) (hn2 : n ≤ xformSamples.length) :
    (((privateData.motionSampleTimes.take n).zip (xformSamples.take n)).map
      (fun p => (timeKey env privateData p.1,
        (p.2.take numInstances).flatMap GfMatrix4d.GetArray))).map Prod.fst =
      (privateData.motionSampleTimes.take n).map (timeKey env privateData) := by
  have hz : (((privateData.motionSampleTimes.take n).zip (xformSamples.take n)).map
      Prod.fst) = privateData.motionSampleTimes.take n :=
    List.map_fst_zip _ _ (by
      rw [List.length_take, List.length_take]
      omega)
  have hcomp : (((privateData.motionSampleTimes.take n).zip (xformSamples.take n)).map
      (fun p => (timeKey env privateData p.1,
        (p.2.take numInstances).flatMap GfMatrix4d.GetArray))).map Prod.fst =
      (((privateData.motionSampleTimes.take n).zip (xformSamples.take n)).map
        Prod.fst).map (timeKey env privateData) := by
    rw [List.map_map, List.map_map]
    rfl
  rw [hcomp, hz]

theorem flatData_getElem (env : Collaborators R P) (privateData : PrivateData R P)
    (xformSamples : List (List (GfMatrix4d R))) (numInstances n a : Nat) (t : R)
    (sample : List (GfMatrix4d R)) (ha : a < n)
    (ht : privateData.motionSampleTimes[a]? = some t) (hs : xformSamples[a]? = some sample) :
    (((privateData.motionSampleTimes.take n).zip (xformSamples.take n)).map
      (fun p => (timeKey env privateData p.1,
        (p.2.take numInstances).flatMap GfMatrix4d.GetArray)))[a]? =
      some (timeKey env privateData t,
        (sample.take numInstances).flatMap GfMatrix4d.GetArray) := by
  have hz : ((privateData.motionSampleTimes.take n).zip (xformSamples.take n))[a]? =
      some (t, sample) := by
    rw [List.getElem?_zip_eq_some]
    simp [List.getElem?_take, ha, ht, hs]
  rw [List.getElem?_map, hz]
  rfl

theorem assocGet_of_getElem {K V : Type} [DecidableEq K] (l : List (K × V)) (a : Nat) (k : K)
    (v : V) (hnd : (l.map Prod.fst).Nodup) (h : l[a]? = some (k, v)) :
    assocGet k l = some v := by
  induction l generalizing a with
  | nil => simp at h
  | cons hd tl ih =>
    obtain ⟨k', v'⟩ := hd
    rw [List.map_cons, List.nodup_cons] at hnd
    cases a with
    | zero =>
      simp only [List.getElem?_cons_zero, Option.some.injEq, Prod.mk.injEq] at h
      simp [assocGet, h.1, h.2]
    | succ b =>
      simp only [List.getElem?_cons_succ] at h
      have hmem : k ∈ tl.map Prod.fst :=
        List.mem_map.mpr ⟨(k, v), List.getElem?_mem h, rfl⟩
      have hne : ¬ k' = k := fun e => hnd.1 (e ▸ hmem)
      simp only [assocGet, if_neg hne]
      exact ih b hnd.2 h

variable [DecidableEq R]

theorem samples_loop (env : Collaborators R P) (privateData : PrivateData R P)
    (xformSamples : List (List (GfMatrix4d R))) (numInstances n : Nat)
    (hn1 : n ≤ privateData.motionSampleTimes.length) (hn2 : n ≤ xformSamples.length)
    (hN : ∀ a sample, a < n → xformSamples[a]? = some sample → numInstances ≤ sample.length)
    (hk : ((privateData.motionSampleTimes.take n).map (timeKey env privateData)).Nodup) :
    forLoopM n
      (fun a bldr => flattenSample env privateData xformSamples numInstances a bldr)
      (DoubleBuilder.new 16) =
      some ⟨16, ((privateData.motionSampleTimes.take n).zip (xformSamples.take n)).map
        (fun p => (timeKey env privateData p.1,
          (p.2.take numInstances).flatMap GfMatrix4d.GetArray))⟩ := by
  induction n with
  | zero => simp [forLoopM, DoubleBuilder.new]
  | succ k ih =>
    have hk1 : k < privateData.motionSampleTimes.length := hn1
    have hk2 : k < xformSamples.length := hn2
    rw [take_succ_of_lt _ _ hk1, List.map_append, List.nodup_append] at hk
    obtain ⟨hnd, _, hdisj⟩ := hk
    rw [forLoopM_succ, ih (Nat.le_of_lt hk1) (Nat.le_of_lt hk2)
      (fun a sample ha hs => hN a sample (Nat.lt_succ_of_lt ha) hs) hnd]
    simp only [Option.some_bind]
    rw [flattenSample_eq env privateData xformSamples numInstances k _
      privateData.motionSampleTimes[k] xformSamples[k] (List.getElem?_eq_getElem hk1)
      (List.getElem?_eq_getElem hk2)
      (hN k _ (Nat.lt_succ_self k) (List.getElem?_eq_getElem hk2))]
    have hfst := flatData_keys env privateData xformSamples numInstances k
      (Nat.le_of_lt hk1) (Nat.le_of_lt hk2)
    have hnot : timeKey env privateData privateData.motionSampleTimes[k] ∉
        (((privateData.motionSampleTimes.take k).zip (xformSamples.take k)).map
        (fun p => (timeKey env privateData p.1,
          (p.2.take numInstances).flatMap GfMatrix4d.GetArray))).map Prod.fst := by
      rw [hfst]
      intro hmem
      exact hdisj hmem (by simp)
    have hzip : (privateData.motionSampleTimes.take (k + 1)).zip (xformSamples.take (k + 1)) =
        (privateData.motionSampleTimes.take k).zip (xformSamples.take k) ++
          [(privateData.motionSampleTimes[k], xformSamples[k])] := by
      rw [take_succ_of_lt _ _ hk1, take_succ_of_lt _ _ hk2, List.zip_append (by
        rw [List.length_take, List.length_take]
        omega)]
      rfl
    simp only [DoubleBuilder.put, DoubleBuilder.get, assocGet_not_mem _ _ hnot,
      assocSet_not_mem _ _ _ hnot, hzip, List.map_append, List.map_cons, List.map_nil,
      Option.getD_none, List.nil_append]

theorem buildInstanceMatrix_distinct (env : Collaborators R P) (privateData : PrivateData R P)
    (xformSamples : List (List (GfMatrix4d R))) (n : Nat) (first : List (GfMatrix4d R))
    (h0 : xformSamples[0]? = some first)
    (hn1 : n ≤ privateData.motionSampleTimes.length) (hn2 : n ≤ xformSamples.length)
    (hN : ∀ a sample, a < n → xformSamples[a]? = some sample → first.length ≤ sample.length)
    (hk : ((privateData.motionSampleTimes.take n).map (timeKey env privateData)).Nodup) :
    buildInstanceMatrix env privateData xformSamples n =
      some (Attribute.double 16
        (((privateData.motionSampleTimes.take n).zip (xformSamples.take n)).map
          (fun p => (timeKey env privateData p.1,
            (p.2.take first.length).flatMap GfMatrix4d.GetArray)))) := by
  simp only [buildInstanceMatrix, h0,
    samples_loop env privateData xformSamples first.length n hn1 hn2 hN hk,
    DoubleBuilder.build]

theorem buildInstanceMatrix_same_key (env : Collaborators R P) (privateData : PrivateData R P)
    (s0 s1 : List (GfMatrix4d R)) (t0 t1 : R) (rest : List (List (GfMatrix4d R)))
    (offsets : List R) (ht : privateData.motionSampleTimes = t0 :: t1 :: offsets)
    (hkey : timeKey env privateData t0 = timeKey env privateData t1)
    (hlen : s0.length ≤ s1.length) :
    buildInstanceMatrix env privateData (s0 :: s1 :: rest) 2 =
      some (Attribute.double 16
        [(timeKey env privateData t0,
          s0.flatMap GfMatrix4d.GetArray ++
            (s1.take s0.length).flatMap GfMatrix4d.GetArray)]) := by
  have h0 : (s0 :: s1 :: rest)[0]? = some s0 := by simp
  have h1 : (s0 :: s1 :: rest)[1]? = some s1 := by simp
  have ht0 : privateData.motionSampleTimes[0]? = some t0 := by rw [ht]; simp
  have ht1 : privateData.motionSampleTimes[1]? = some t1 := by rw [ht]; simp
  simp only [buildInstanceMatrix, h0, forLoopM, Option.some_bind]
  rw [flattenSample_eq env privateData _ s0.length 0 _ t0 s0 ht0 h0 (Nat.le_refl _)]
  simp only [Option.some_bind]
  rw [flattenSample_eq env privateData _ s0.length 1 _ t1 s1 ht1 h1 hlen]
  simp [DoubleBuilder.put, DoubleBuilder.get, DoubleBuilder.new, DoubleBuilder.build,
    assocGet, assocSet, hkey]

end FlattenAll

section InstanceMatrix

variable {R P : Type} [DecidableEq R]

/-- C5, as amended. Let N be the size of the first produced sample. If the
produced-sample count n exceeds neither the number of offsets nor the number
of sample arrays, each of the first n sample arrays holds at least N matrices,
and the time keys of the first n offsets are pairwise distinct, then the
flattening succeeds and, for every produced sample a < n, the buffer stored
under that sample's time key has length exactly 16 * N and, for every i < N
and j < 16, its component at position 16 * i + j is entry j of `GetArray` of
instance i's matrix in that sample. -/
theorem instanceMatrix_buffer_layout (env : Collaborators R P) (privateData : PrivateData R P)
    (xformSamples : List (List (GfMatrix4d R))) (n : Nat) (first : List (GfMatrix4d R))
    (h0 : xformSamples[0]? = some first)
    (hn1 : n ≤ privateData.motionSampleTimes.length) (hn2 : n ≤ xformSamples.length)
    (hN : ∀ a sample, a < n → xformSamples[a]? = some sample → first.length ≤ sample.length)
    (hk : ((privateData.motionSampleTimes.take n).map (timeKey env privateData)).Nodup) :
    ∃ instanceMatrix, buildInstanceMatrix env privateData xformSamples n = some instanceMatrix ∧
      ∀ a t sample, a < n → privateData.motionSampleTimes[a]? = some t →
        xformSamples[a]? = some sample →
        ∃ buf, assocGet (timeKey env privateData t) instanceMatrix.samples = some buf ∧
          buf.length = 16 * first.length ∧
          ∀ i j m, i < first.length → j < 16 → sample[i]? = some m →
            buf[16 * i + j]? = m.GetArray[j]? := by
  refine ⟨_, buildInstanceMatrix_distinct env privateData xformSamples n first h0 hn1 hn2 hN hk,
    ?_⟩
  intro a t sample ha ht hs
  have hle : first.length ≤ sample.length := hN a sample ha hs
  refine ⟨(sample.take first.length).flatMap GfMatrix4d.GetArray, ?_, ?_, ?_⟩
  · apply assocGet_of_getElem _ a
    · simp only [Attribute.samples]
      rw [flatData_keys env privateData xformSamples first.length n hn1 hn2]
      exact hk
    · exact flatData_getElem env privateData xformSamples first.length n a t sample ha ht hs
  · exact flat_length sample first.length hle
  · intro i j m hi hj hm
    rw [flat_getElem sample first.length i j hle hi hj, hm]
    rfl

/-- C6, as amended. If the produced-sample count n exceeds neither the number
of offsets nor the number of sample arrays, each of the first n sample arrays
holds at least as many matrices as the first, and the time keys of the first n
offsets are pairwise distinct, then the `instanceMatrix` attribute placed in
the reader's input map has exactly n time-keyed buffers, one under the key of
each of the first n offsets, whatever the number of requested samples. -/
theorem instanceMatrix_buffer_count (env : Collaborators R P) (privateData : PrivateData R P)
    (interface : GeolibCookInterface R P)
    (xformSamples : List (List (GfMatrix4d R))) (n : Nat) (first : List (GfMatrix4d R))
    (h0 : xformSamples[0]? = some first)
    (hn1 : n ≤ privateData.motionSampleTimes.length) (hn2 : n ≤ xformSamples.length)
    (hN : ∀ a sample, a < n → xformSamples[a]? = some sample → first.length ≤ sample.length)
    (hk : ((privateData.motionSampleTimes.take n).map (timeKey env privateData)).Nodup) :
    ∃ instanceMatrix, buildInstanceMatrix env privateData xformSamples n = some instanceMatrix ∧
      instanceMatrix.getNumberOfTimeSamples = n ∧
      instanceMatrix.samples.map Prod.fst =
        (privateData.motionSampleTimes.take n).map (timeKey env privateData) ∧
      (readerInput interface instanceMatrix).build.getChildByName "instanceMatrix" =
        instanceMatrix := by
  refine ⟨_, buildInstanceMatrix_distinct env privateData xformSamples n first h0 hn1 hn2 hN hk,
    ?_, ?_, ?_⟩
  · have h := congrArg List.length
      (flatData_keys env privateData xformSamples first.length n hn1 hn2)
    simp only [List.length_map, List.length_take] at h
    simp only [Attribute.getNumberOfTimeSamples, Attribute.samples, List.length_map]
    omega
  · exact flatData_keys env privateData xformSamples first.length n hn1 hn2
  · simp [readerInput, PxrUsdKatanaAttrMap.set, PxrUsdKatanaAttrMap.build,
      Attribute.getChildByName, Attribute.children, assocGet_assocSet_self]

end InstanceMatrix

section InstanceMatrixInstances

theorem exXforms_bounds (a : Nat) (sample : List (GfMatrix4d Int)) (ha : a < 2)
    (hs : (computeXforms (exEnv 2 exMapsOk) (exPrivateData false)).1[a]? = some sample) :
    [exMatrix 9, exMatrix 109, exMatrix 209].length ≤ sample.length := by
  have h1 : (computeXforms (exEnv 2 exMapsOk) (exPrivateData false)).1 =
      [[exMatrix 9, exMatrix 109, exMatrix 209], [exMatrix 11, exMatrix 111, exMatrix 211]] :=
    rfl
  rw [h1] at hs
  match a, ha with
  | 0, _ =>
    simp only [List.getElem?_cons_zero, Option.some.injEq] at hs
    rw [← hs]
  | 1, _ =>
    simp only [List.getElem?_cons_succ, List.getElem?_cons_zero, Option.some.injEq] at hs
    rw [← hs]
    decide

/-- Instance of C5 as amended: offsets -1, 1 at frame 10, three instances. -/
theorem instanceMatrix_buffer_layout_witness :
    ((exPrivateData false).motionSampleTimes.take 2).map
      (timeKey (exEnv 2 exMapsOk) (exPrivateData false)) = [-1, 1] ∧
    ∃ instanceMatrix,
      buildInstanceMatrix (exEnv 2 exMapsOk) (exPrivateData false)
        (computeXforms (exEnv 2 exMapsOk) (exPrivateData false)).1 2 = some instanceMatrix ∧
      ∀ a t sample, a < 2 → (exPrivateData false).motionSampleTimes[a]? = some t →
        (computeXforms (exEnv 2 exMapsOk) (exPrivateData false)).1[a]? = some sample →
        ∃ buf, assocGet (timeKey (exEnv 2 exMapsOk) (exPrivateData false) t)
            instanceMatrix.samples = some buf ∧
          buf.length = 16 * 3 ∧
          ∀ i j m, i < 3 → j < 16 → sample[i]? = some m →
            buf[16 * i + j]? = m.GetArray[j]? :=
  ⟨rfl, instanceMatrix_buffer_layout (exEnv 2 exMapsOk) (exPrivateData false)
    (computeXforms (exEnv 2 exMapsOk) (exPrivateData false)).1 2
    [exMatrix 9, exMatrix 109, exMatrix 209] rfl (by decide) (by decide) exXforms_bounds
    (by decide)⟩

/-- Instance of C6 as amended: two produced samples, two buffers. -/
theorem instanceMatrix_buffer_count_witness :
    ((exPrivateData false).motionSampleTimes.take 2).map
      (timeKey (exEnv 2 exMapsOk) (exPrivateData false)) = [-1, 1] ∧
    ∃ instanceMatrix,
      buildInstanceMatrix (exEnv 2 exMapsOk) (exPrivateData false)
        (computeXforms (exEnv 2 exMapsOk) (exPrivateData false)).1 2 = some instanceMatrix ∧
      instanceMatrix.getNumberOfTimeSamples = 2 ∧
      instanceMatrix.samples.map Prod.fst = [-1, 1] ∧
      (readerInput exInterface instanceMatrix).build.getChildByName "instanceMatrix" =
        instanceMatrix :=
  ⟨rfl, instanceMatrix_buffer_count (exEnv 2 exMapsOk) (exPrivateData false) exInterface
    (computeXforms (exEnv 2 exMapsOk) (exPrivateData false)).1 2
    [exMatrix 9, exMatrix 109, exMatrix 209] rfl (by decide) (by decide) exXforms_bounds
    (by decide)⟩

theorem exDup_xforms :
    (computeXforms (exEnv 2 exMapsOk) exPrivateDataDup).1 =
      [[exMatrix 10, exMatrix 110, exMatrix 210], [exMatrix 10, exMatrix 110, exMatrix 210]] :=
  rfl

theorem exDup_instanceMatrix :
    buildInstanceMatrix (exEnv 2 exMapsOk) exPrivateDataDup
      (computeXforms (exEnv 2 exMapsOk) exPrivateDataDup).1
      (computeXforms (exEnv 2 exMapsOk) exPrivateDataDup).2 =
    some (Attribute.double 16
      [(0, [exMatrix 10, exMatrix 110, exMatrix 210].flatMap GfMatrix4d.GetArray ++
           [exMatrix 10, exMatrix 110, exMatrix 210].flatMap GfMatrix4d.GetArray)]) := by
  have hp : (computeXforms (exEnv 2 exMapsOk) exPrivateDataDup).2 = 2 := rfl
  have ht : exPrivateDataDup.motionSampleTimes = [0, 0] := rfl
  rw [hp, exDup_xforms]
  exact buildInstanceMatrix_same_key (exEnv 2 exMapsOk) exPrivateDataDup
    [exMatrix 10, exMatrix 110, exMatrix 210] [exMatrix 10, exMatrix 110, exMatrix 210]
    0 0 [] [] ht rfl (Nat.le_refl _)

/-- C5 fails as stated: with the offsets 0, 0 and two produced samples of
three matrices each (N = 3), the buffer stored under the time key 0 of either
sample has length 96, not 16 * 3 = 48. -/
theorem instanceMatrix_duplicate_offsets_long_buffer :
    ((computeXforms (exEnv 2 exMapsOk) exPrivateDataDup).1[0]?).map List.length = some 3 ∧
    (computeXforms (exEnv 2 exMapsOk) exPrivateDataDup).2 = 2 ∧
    (exPrivateDataDup.motionSampleTimes.map
      (timeKey (exEnv 2 exMapsOk) exPrivateDataDup)) = [0, 0] ∧
    ∃ instanceMatrix,
      buildInstanceMatrix (exEnv 2 exMapsOk) exPrivateDataDup
        (computeXforms (exEnv 2 exMapsOk) exPrivateDataDup).1
        (computeXforms (exEnv 2 exMapsOk) exPrivateDataDup).2 = some instanceMatrix ∧
      (assocGet 0 instanceMatrix.samples).map List.length = some 96 ∧
      (96 : Nat) ≠ 16 * 3 :=
  ⟨rfl, rfl, rfl, _, exDup_instanceMatrix, rfl, by decide⟩

/-- C6 fails as stated: with the non-empty offset list 0, 0 and a produced
count of 2, the `instanceMatrix` attribute has one time-keyed buffer, not two. -/
theorem instanceMatrix_duplicate_offsets_one_buffer :
    exPrivateDataDup.motionSampleTimes ≠ [] ∧
    (computeXforms (exEnv 2 exMapsOk) exPrivateDataDup).2 = 2 ∧
    ∃ instanceMatrix,
      buildInstanceMatrix (exEnv 2 exMapsOk) exPrivateDataDup
        (computeXforms (exEnv 2 exMapsOk) exPrivateDataDup).1
        (computeXforms (exEnv 2 exMapsOk) exPrivateDataDup).2 = some instanceMatrix ∧
      instanceMatrix.getNumberOfTimeSamples = 1 ∧
      instanceMatrix.getNumberOfTimeSamples ≠
        (computeXforms (exEnv 2 exMapsOk) exPrivateDataDup).2 :=
  ⟨by decide, rfl, _, exDup_instanceMatrix, rfl, by decide⟩

end InstanceMatrixInstances

section TimeKeys

variable {R P : Type} [DecidableEq R]

theorem get_put_self (b : DoubleBuilder R) (t : R) (v : List R) : (b.put t v).get t = v := by
  simp [DoubleBuilder.put, DoubleBuilder.get, assocGet_assocSet_self]

theorem get_put_ne (b : DoubleBuilder R) (t k : R) (v : List R) (h : k ≠ t) :
    (b.put t v).get k = b.get k := by
  simp [DoubleBuilder.put, DoubleBuilder.get, assocGet_assocSet_ne _ _ _ _ h]

/-- C7. Iteration a of the loop over the produced samples, started from any
builder state, appends the flattened matrices of sample a to the buffer held
under one time key and leaves the buffer of every other key as it was; that key
is the a-th offset itself when motion is forward and `ReverseTimeSample` of
that offset when motion is backward. With the offsets -0.5, 0.5, backward
motion and a reversal that sends -0.5 to 0.5 and 0.5 to -0.5, the samples are
stored under the keys 0.5, -0.5 in that order. -/
theorem sample_stored_under_timeKey (env : Collaborators R P) (privateData : PrivateData R P)
    (xformSamples : List (List (GfMatrix4d R))) (numInstances a : Nat)
    (bldr : DoubleBuilder R) (t : R) (sample : List (GfMatrix4d R))
    (ht : privateData.motionSampleTimes[a]? = some t)
    (hs : xformSamples[a]? = some sample) (hn : numInstances ≤ sample.length) :
    (∃ out, flattenSample env privateData xformSamples numInstances a bldr = some out ∧
      (privateData.isMotionBackward = false →
        out.get t = bldr.get t ++ (sample.take numInstances).flatMap GfMatrix4d.GetArray ∧
        ∀ k, k ≠ t → out.get k = bldr.get k) ∧
      (privateData.isMotionBackward = true →
        out.get (env.ReverseTimeSample t) = bldr.get (env.ReverseTimeSample t) ++
          (sample.take numInstances).flatMap GfMatrix4d.GetArray ∧
        ∀ k, k ≠ env.ReverseTimeSample t → out.get k = bldr.get k)) ∧
    (∀ (envQ : Collaborators ℚ P) (privateDataQ : PrivateData ℚ P)
      (s0 s1 : List (GfMatrix4d ℚ)) (rest : List (List (GfMatrix4d ℚ))),
      privateDataQ.motionSampleTimes = [-0.5, 0.5] →
      privateDataQ.isMotionBackward = true →
      envQ.ReverseTimeSample (-0.5) = 0.5 →
      envQ.ReverseTimeSample 0.5 = -0.5 →
      s0.length ≤ s1.length →
      buildInstanceMatrix envQ privateDataQ (s0 :: s1 :: rest) 2 =
        some (Attribute.double 16
          [(0.5, s0.flatMap GfMatrix4d.GetArray),
           (-0.5, (s1.take s0.length).flatMap GfMatrix4d.GetArray)])) := by
  refine ⟨⟨_, flattenSample_eq env privateData xformSamples numInstances a bldr t sample ht hs hn,
    ?_, ?_⟩, ?_⟩
  · intro hb
    have hkey : timeKey env privateData t = t := by simp [timeKey, hb]
    rw [hkey]
    exact ⟨get_put_self _ _ _, fun k hk => get_put_ne _ _ _ _ hk⟩
  · intro hb
    have hkey : timeKey env privateData t = env.ReverseTimeSample t := by simp [timeKey, hb]
    rw [hkey]
    exact ⟨get_put_self _ _ _, fun k hk => get_put_ne _ _ _ _ hk⟩
  · intro envQ privateDataQ s0 s1 rest hoff hb h1 h2 hlen
    have hk1 : timeKey envQ privateDataQ (-0.5) = 0.5 := by simp [timeKey, hb, h1]
    have hk2 : timeKey envQ privateDataQ 0.5 = -0.5 := by simp [timeKey, hb, h2]
    have h := buildInstanceMatrix_distinct envQ privateDataQ (s0 :: s1 :: rest) 2 s0
      (by simp) (by simp [hoff]) (by simp)
      (by
        intro b sample hb2 hsb
        match b, hb2 with
        | 0, _ =>
          simp only [List.getElem?_cons_zero, Option.some.injEq] at hsb
          rw [← hsb]
        | 1, _ =>
          simp only [List.getElem?_cons_succ, List.getElem?_cons_zero, Option.some.injEq] at hsb
          rw [← hsb]
          exact hlen)
      (by
        rw [hoff]
        simp only [List.take, List.map, hk1, hk2]
        norm_num)
    rw [h, hoff]
    simp only [List.take, List.zip, List.zipWith, List.map, hk1, hk2, List.take_length]

end TimeKeys

section TimeKeyInstances

theorem exXforms_eq (backward : Bool) :
    (computeXforms (exEnv 2 exMapsOk) (exPrivateData backward)).1 =
      [[exMatrix 9, exMatrix 109, exMatrix 209], [exMatrix 11, exMatrix 111, exMatrix 211]] :=
  rfl

/-- Instance of C7: backward motion, sample 1 of the offsets -1, 1 goes under
key -1; and the offsets -0.5, 0.5 with the reversal `t ↦ -t`. -/
theorem sample_stored_under_timeKey_witness :
    (exPrivateData true).motionSampleTimes[1]? = some 1 ∧
    (exEnv 2 exMapsOk).ReverseTimeSample 1 = -1 ∧
    (∃ out, flattenSample (exEnv 2 exMapsOk) (exPrivateData true)
        (computeXforms (exEnv 2 exMapsOk) (exPrivateData true)).1 3 1
        (DoubleBuilder.new 16) = some out ∧
      out.get (-1) = (DoubleBuilder.new 16).get (-1) ++
        ([exMatrix 11, exMatrix 111, exMatrix 211].take 3).flatMap GfMatrix4d.GetArray) ∧
    (exEnvQ [[⟨fun _ _ => 1⟩], [⟨fun _ _ => 2⟩]]).ReverseTimeSample (-0.5) = 0.5 ∧
    (exEnvQ [[⟨fun _ _ => 1⟩], [⟨fun _ _ => 2⟩]]).ReverseTimeSample 0.5 = -0.5 ∧
    buildInstanceMatrix (exEnvQ [[⟨fun _ _ => 1⟩], [⟨fun _ _ => 2⟩]]) exPrivateDataQ
        [[⟨fun _ _ => 1⟩], [⟨fun _ _ => 2⟩]] 2 =
      some (Attribute.double 16
        [(0.5, [(⟨fun _ _ => 1⟩ : GfMatrix4d ℚ)].flatMap GfMatrix4d.GetArray),
         (-0.5, ([(⟨fun _ _ => 2⟩ : GfMatrix4d ℚ)].take 1).flatMap GfMatrix4d.GetArray)]) := by
  have hr1 : (exEnvQ [[⟨fun _ _ => 1⟩], [⟨fun _ _ => 2⟩]]).ReverseTimeSample (-0.5) = 0.5 := by
    norm_num [exEnvQ]
  have hr2 : (exEnvQ [[⟨fun _ _ => 1⟩], [⟨fun _ _ => 2⟩]]).ReverseTimeSample 0.5 = -0.5 := by
    norm_num [exEnvQ]
  have ht : (exPrivateData true).motionSampleTimes[1]? = some 1 := by
    simp [exPrivateData]
  have hs : (computeXforms (exEnv 2 exMapsOk) (exPrivateData true)).1[1]? =
      some [exMatrix 11, exMatrix 111, exMatrix 211] := by
    rw [exXforms_eq]; simp
  obtain ⟨⟨out, ho, _, hback⟩, hq⟩ :=
    sample_stored_under_timeKey (exEnv 2 exMapsOk) (exPrivateData true)
      (computeXforms (exEnv 2 exMapsOk) (exPrivateData true)).1 3 1 (DoubleBuilder.new 16) 1
      [exMatrix 11, exMatrix 111, exMatrix 211] ht hs (by decide)
  exact ⟨ht, rfl, ⟨out, ho, (hback rfl).1⟩, hr1, hr2,
    hq (exEnvQ [[⟨fun _ _ => 1⟩], [⟨fun _ _ => 2⟩]]) exPrivateDataQ
      [⟨fun _ _ => 1⟩] [⟨fun _ _ => 2⟩] [] rfl rfl hr1 hr2 (by simp)⟩

end TimeKeyInstances

/-! ## No offsets versus the single offset 0 -/

section NoOffsets

variable {R P : Type} [DecidableEq R]

theorem buildInstanceMatrix_single_offset (env : Collaborators R P)
    (privateData : PrivateData R P) (t : R) (hoff : privateData.motionSampleTimes = [t])
    (s0 : List (GfMatrix4d R)) (rest : List (List (GfMatrix4d R))) :
    buildInstanceMatrix env privateData (s0 :: rest) 1 =
      some (Attribute.double 16
        [(timeKey env privateData t, s0.flatMap GfMatrix4d.GetArray)]) := by
  have h0 : (s0 :: rest)[0]? = some s0 := by simp
  have ht0 : privateData.motionSampleTimes[0]? = some t := by rw [hoff]; simp
  simp only [buildInstanceMatrix, h0, forLoopM, Option.some_bind]
  rw [flattenSample_eq env privateData _ s0.length 0 _ t s0 ht0 h0 (Nat.le_refl _)]
  simp [DoubleBuilder.put, DoubleBuilder.get, DoubleBuilder.new, DoubleBuilder.build,
    assocGet, assocSet]

variable [Add R] [Zero R]

/-- C9. With `GetMotionSampleTimes` as the spec describes it, an empty list of
motion-sample offsets is equivalent to the single-offset list [0]: the op
reads the same offsets in both cases, its two runs coincide, both request the
time codes [c + 0] from the transform computer with default time c (that is
[c] as soon as c + 0 = c), and both store the first produced sample under the
same time key, which is 0 when motion is forward and `ReverseTimeSample 0`
when it is backward (0 again for a reversal that keeps 0). -/
theorem no_offsets_same_as_zero_offset (env : Collaborators R P)
    (privateData : PrivateData R P) (interface : GeolibCookInterface R P) :
    (privateData.withOffsets []).motionSampleTimes =
      (privateData.withOffsets [0]).motionSampleTimes ∧
    PointInstancerOp env (privateData.withOffsets []) interface =
      PointInstancerOp env (privateData.withOffsets [0]) interface ∧
    computeSampleTimes privateData.currentTime (privateData.withOffsets []).motionSampleTimes =
      [privateData.currentTime + 0] ∧
    computeSampleTimes privateData.currentTime (privateData.withOffsets [0]).motionSampleTimes =
      [privateData.currentTime + 0] ∧
    (privateData.currentTime + 0 = privateData.currentTime →
      computeSampleTimes privateData.currentTime
        (privateData.withOffsets []).motionSampleTimes = [privateData.currentTime]) ∧
    (∃ rest, (finalInterface (PointInstancerOp env (privateData.withOffsets [])
        interface)).calls =
      interface.calls ++
        Call.computeInstanceTransformsAtTime privateData.usdPrim [privateData.currentTime + 0]
          privateData.currentTime :: rest) ∧
    (∀ (xformSamples : List (List (GfMatrix4d R))) (n : Nat),
      buildInstanceMatrix env (privateData.withOffsets []) xformSamples n =
        buildInstanceMatrix env (privateData.withOffsets [0]) xformSamples n) ∧
    (∀ (s0 : List (GfMatrix4d R)) (rest : List (List (GfMatrix4d R))),
      buildInstanceMatrix env (privateData.withOffsets []) (s0 :: rest) 1 =
        some (Attribute.double 16
          [(if privateData.isMotionBackward = true then env.ReverseTimeSample 0 else 0,
            s0.flatMap GfMatrix4d.GetArray)])) ∧
    (privateData.isMotionBackward = false ∨ env.ReverseTimeSample 0 = 0 →
      ∀ (s0 : List (GfMatrix4d R)) (rest : List (List (GfMatrix4d R))),
        buildInstanceMatrix env (privateData.withOffsets []) (s0 :: rest) 1 =
          some (Attribute.double 16 [(0, s0.flatMap GfMatrix4d.GetArray)])) := by
  have htimes : computeSampleTimes privateData.currentTime
      (privateData.withOffsets []).motionSampleTimes = [privateData.currentTime + 0] := by
    rw [computeSampleTimes_eq_map]
    rfl
  have hkey : ∀ (s0 : List (GfMatrix4d R)) (rest : List (List (GfMatrix4d R))),
      buildInstanceMatrix env (privateData.withOffsets []) (s0 :: rest) 1 =
        some (Attribute.double 16
          [(if privateData.isMotionBackward = true then env.ReverseTimeSample 0 else 0,
            s0.flatMap GfMatrix4d.GetArray)]) := by
    intro s0 rest
    exact buildInstanceMatrix_single_offset env (privateData.withOffsets []) 0 rfl s0 rest
  refine ⟨rfl, rfl, htimes, htimes, ?_, ?_, fun _ _ => rfl, hkey, ?_⟩
  · intro hc
    rw [htimes, hc]
  · obtain ⟨rest, h⟩ := PointInstancerOp_calls_prefix env (privateData.withOffsets [])
      interface
    refine ⟨rest, ?_⟩
    rw [h]
    simp only [computeCall, htimes]
    rfl
  · intro h s0 rest
    rw [hkey s0 rest]
    rcases h with h | h
    · simp [h]
    · by_cases hb : privateData.isMotionBackward = true
      · simp [hb, h]
      · simp [hb]

end NoOffsets

/-! ## The flattening without any assumption on the time keys -/

section FlattenGeneral

theorem assocSet_keys {K V : Type} [DecidableEq K] (k : K) (v : V) (l : List (K × V)) :
    (assocSet k v l).map Prod.fst =
      if k ∈ l.map Prod.fst then l.map Prod.fst else l.map Prod.fst ++ [k] := by
  induction l with
  | nil => simp [assocSet]
  | cons hd tl ih =>
    obtain ⟨k', v'⟩ := hd
    by_cases h : k' = k
    · subst h
      simp [assocSet]
    · have h2 : ¬ k = k' := fun e => h e.symm
      simp only [assocSet, if_neg h, List.map_cons, ih, List.mem_cons, h2, false_or]
      by_cases hm : k ∈ tl.map Prod.fst
      · simp [hm]
      · simp [hm]

theorem assocSet_keys_nodup {K V : Type} [DecidableEq K] (k : K) (v : V) (l : List (K × V))
    (h : (l.map Prod.fst).Nodup) : ((assocSet k v l).map Prod.fst).Nodup := by
  rw [assocSet_keys]
  by_cases hm : k ∈ l.map Prod.fst
  · rw [if_pos hm]; exact h
  · rw [if_neg hm]
    rw [List.nodup_append]
    refine ⟨h, List.nodup_singleton k, ?_⟩
    intro x hx hx2
    rw [List.mem_singleton] at hx2
    exact hm (hx2 ▸ hx)

theorem assocSet_keys_mem {K V : Type} [DecidableEq K] (k k2 : K) (v : V) (l : List (K × V)) :
    k2 ∈ (assocSet k v l).map Prod.fst ↔ k2 ∈ l.map Prod.fst ∨ k2 = k := by
  rw [assocSet_keys]
  by_cases hm : k ∈ l.map Prod.fst
  · rw [if_pos hm]
    constructor
    · exact fun h => Or.inl h
    · rintro (h | h)
      · exact h
      · exact h ▸ hm
  · rw [if_neg hm, List.mem_append, List.mem_singleton]

theorem assocGet_of_mem_keys {K V : Type} [DecidableEq K] (k : K) (l : List (K × V))
    (h : k ∈ l.map Prod.fst) : ∃ v, assocGet k l = some v := by
  induction l with
  | nil => simp at h
  | cons hd tl ih =>
    obtain ⟨k', v'⟩ := hd
    by_cases hk : k' = k
    · exact ⟨v', by simp [assocGet, hk]⟩
    · have hne : ¬ k = k' := fun e => hk e.symm
      simp only [List.map_cons, List.mem_cons, hne, false_or] at h
      obtain ⟨v, hv⟩ := ih h
      exact ⟨v, by simp [assocGet, hk, hv]⟩

variable {R P : Type} [DecidableEq R]

theorem samples_loop_general (env : Collaborators R P) (privateData : PrivateData R P)
    (xformSamples : List (List (GfMatrix4d R))) (numInstances n : Nat)
    (hn1 : n ≤ privateData.motionSampleTimes.length) (hn2 : n ≤ xformSamples.length)
    (hN : ∀ a sample, a < n → xformSamples[a]? = some sample → numInstances ≤ sample.length) :
    ∃ b, forLoopM n
        (fun a bldr => flattenSample env privateData xformSamples numInstances a bldr)
        (DoubleBuilder.new 16) = some b ∧
      b.tupleSize = 16 ∧
      (b.data.map Prod.fst).Nodup ∧
      (∀ k, k ∈ b.data.map Prod.fst ↔
        k ∈ (privateData.motionSampleTimes.take n).map (timeKey env privateData)) ∧
      ∀ k, b.get k =
        (((privateData.motionSampleTimes.take n).zip (xformSamples.take n)).filter
          (fun p => decide (timeKey env privateData p.1 = k))).flatMap
          (fun p => (p.2.take numInstances).flatMap GfMatrix4d.GetArray) := by
  induction n with
  | zero =>
    refine ⟨DoubleBuilder.new 16, rfl, rfl, ?_, ?_, ?_⟩
    · simp [DoubleBuilder.new]
    · intro k; simp [DoubleBuilder.new]
    · intro k; simp [DoubleBuilder.new, DoubleBuilder.get, assocGet]
  | succ k ih =>
    have hk1 : k < privateData.motionSampleTimes.length := hn1
    have hk2 : k < xformSamples.length := hn2
    obtain ⟨b, hb, hts, hnd, hmem, hget⟩ := ih (Nat.le_of_lt hk1) (Nat.le_of_lt hk2)
      (fun a sample ha hs => hN a sample (Nat.lt_succ_of_lt ha) hs)
    have hzip : (privateData.motionSampleTimes.take (k + 1)).zip (xformSamples.take (k + 1)) =
        (privateData.motionSampleTimes.take k).zip (xformSamples.take k) ++
          [(privateData.motionSampleTimes[k], xformSamples[k])] := by
      rw [take_succ_of_lt _ _ hk1, take_succ_of_lt _ _ hk2, List.zip_append (by
        rw [List.length_take, List.length_take]
        omega)]
      rfl
    refine ⟨b.put (timeKey env privateData privateData.motionSampleTimes[k])
      (b.get (timeKey env privateData privateData.motionSampleTimes[k]) ++
        (xformSamples[k].take numInstances).flatMap GfMatrix4d.GetArray), ?_, ?_, ?_, ?_, ?_⟩
    · rw [forLoopM_succ, hb]
      simp only [Option.some_bind]
      exact flattenSample_eq env privateData xformSamples numInstances k b
        privateData.motionSampleTimes[k] xformSamples[k] (List.getElem?_eq_getElem hk1)
        (List.getElem?_eq_getElem hk2)
        (hN k _ (Nat.lt_succ_self k) (List.getElem?_eq_getElem hk2))
    · exact hts
    · exact assocSet_keys_nodup _ _ _ hnd
    · intro k2
      simp only [DoubleBuilder.put]
      rw [assocSet_keys_mem, hmem k2, take_succ_of_lt _ _ hk1, List.map_append, List.mem_append]
      simp
    · intro k2
      rw [hzip, List.filter_append, List.flatMap_append, ← hget k2]
      by_cases hk : k2 = timeKey env privateData privateData.motionSampleTimes[k]
      · subst hk
        rw [get_put_self]
        simp
      · rw [get_put_ne _ _ _ _ hk]
        have hk' : ¬ timeKey env privateData privateData.motionSampleTimes[k] = k2 :=
          fun e => hk e.symm
        simp [hk']

end FlattenGeneral

section InBounds

variable {R P : Type} [DecidableEq R]

theorem buildInstanceMatrix_general (env : Collaborators R P) (privateData : PrivateData R P)
    (xformSamples : List (List (GfMatrix4d R))) (n : Nat) (first : List (GfMatrix4d R))
    (h0 : xformSamples[0]? = some first)
    (hn1 : n ≤ privateData.motionSampleTimes.length) (hn2 : n ≤ xformSamples.length)
    (hN : ∀ a sample, a < n → xformSamples[a]? = some sample → first.length ≤ sample.length) :
    ∃ instanceMatrix, buildInstanceMatrix env privateData xformSamples n = some instanceMatrix ∧
      (instanceMatrix.samples.map Prod.fst).Nodup ∧
      (∀ k, k ∈ instanceMatrix.samples.map Prod.fst ↔
        k ∈ (privateData.motionSampleTimes.take n).map (timeKey env privateData)) ∧
      ∀ k, (assocGet k instanceMatrix.samples).getD [] =
        (((privateData.motionSampleTimes.take n).zip (xformSamples.take n)).filter
          (fun p => decide (timeKey env privateData p.1 = k))).flatMap
          (fun p => (p.2.take first.length).flatMap GfMatrix4d.GetArray) := by
  obtain ⟨b, hb, _, hnd, hmem, hget⟩ :=
    samples_loop_general env privateData xformSamples first.length n hn1 hn2 hN
  refine ⟨b.build, ?_, hnd, hmem, hget⟩
  simp only [buildInstanceMatrix, h0, hb]

theorem head_of_pos {α : Type} (l : List α) (n : Nat) (hn : n ≠ 0) (hle : n ≤ l.length) :
    ∃ first, l[0]? = some first := by
  have h : 0 < l.length := by omega
  exact ⟨l[0], List.getElem?_eq_getElem h⟩

variable [Add R] [Zero R]

theorem PointInstancerOp_of_no_samples (env : Collaborators R P)
    (privateData : PrivateData R P) (interface : GeolibCookInterface R P)
    (hn : (computeXforms env privateData).2 = 0) :
    PointInstancerOp env privateData interface =
      Except.ok (((interface.log (computeCall privateData)).setAttr "type"
        (Attribute.string "error")).setAttr "errorMessage"
        (Attribute.string noSamplesMessage)) := by
  unfold computeXforms at hn
  simp only [PointInstancerOp, hn, if_true, computeCall]

/-- C14. If the produced-sample count is at most the number of offsets and at
most the number of sample arrays returned, and each of the first producedCount
sample arrays has at least as many matrices as the first one (N), then every
read of the flattening is in range: `xformSamples[0]` exists whenever the
produced count is non-zero, and `motionSampleTimes[a]`, `xformSamples[a]` and
`xformSamples[a][i]` exist for every a below the produced count and i < N; the
flattening returns an attribute and the op returns normally. -/
theorem flattening_in_bounds (env : Collaborators R P) (privateData : PrivateData R P)
    (interface : GeolibCookInterface R P)
    (hn1 : (computeXforms env privateData).2 ≤ privateData.motionSampleTimes.length)
    (hn2 : (computeXforms env privateData).2 ≤ (computeXforms env privateData).1.length)
    (hN : ∀ first a sample, (computeXforms env privateData).1[0]? = some first →
      a < (computeXforms env privateData).2 →
      (computeXforms env privateData).1[a]? = some sample → first.length ≤ sample.length) :
    ((computeXforms env privateData).2 ≠ 0 →
      ∃ first, (computeXforms env privateData).1[0]? = some first) ∧
    (∀ first a i, (computeXforms env privateData).1[0]? = some first →
      a < (computeXforms env privateData).2 → i < first.length →
      ∃ t sample m, privateData.motionSampleTimes[a]? = some t ∧
        (computeXforms env privateData).1[a]? = some sample ∧ sample[i]? = some m) ∧
    ((computeXforms env privateData).2 ≠ 0 →
      ∃ instanceMatrix, buildInstanceMatrix env privateData (computeXforms env privateData).1
        (computeXforms env privateData).2 = some instanceMatrix) ∧
    ∃ out, PointInstancerOp env privateData interface = Except.ok out := by
  have hbuild : (computeXforms env privateData).2 ≠ 0 →
      ∃ instanceMatrix, buildInstanceMatrix env privateData (computeXforms env privateData).1
        (computeXforms env privateData).2 = some instanceMatrix := by
    intro hn
    obtain ⟨first, h0⟩ := head_of_pos _ _ hn hn2
    obtain ⟨im, him, _⟩ := buildInstanceMatrix_general env privateData
      (computeXforms env privateData).1 (computeXforms env privateData).2 first h0 hn1 hn2
      (fun a sample ha hs => hN first a sample h0 ha hs)
    exact ⟨im, him⟩
  refine ⟨fun hn => head_of_pos _ _ hn hn2, ?_, hbuild, ?_⟩
  · intro first a i h0 ha hi
    have ha1 : a < privateData.motionSampleTimes.length := Nat.lt_of_lt_of_le ha hn1
    have ha2 : a < (computeXforms env privateData).1.length := Nat.lt_of_lt_of_le ha hn2
    have hle := hN first a _ h0 ha (List.getElem?_eq_getElem ha2)
    have hi2 : i < ((computeXforms env privateData).1[a]).length := Nat.lt_of_lt_of_le hi hle
    exact ⟨_, _, _, List.getElem?_eq_getElem ha1, List.getElem?_eq_getElem ha2,
      List.getElem?_eq_getElem hi2⟩
  · by_cases hn : (computeXforms env privateData).2 = 0
    · exact ⟨_, PointInstancerOp_of_no_samples env privateData interface hn⟩
    · obtain ⟨im, him⟩ := hbuild hn
      rw [PointInstancerOp_after_reader env privateData interface im hn him]
      split
      · exact ⟨_, rfl⟩
      · split
        · exact ⟨_, rfl⟩
        · exact ⟨_, rfl⟩

end InBounds

section InBoundsInstances

/-- Instance of C14: two produced samples of three matrices for the offsets
-1, 1. -/
theorem flattening_in_bounds_witness :
    (computeXforms (exEnv 2 exMapsOk) (exPrivateData false)).2 ≤
      (exPrivateData false).motionSampleTimes.length ∧
    (computeXforms (exEnv 2 exMapsOk) (exPrivateData false)).2 ≤
      (computeXforms (exEnv 2 exMapsOk) (exPrivateData false)).1.length ∧
    (∃ instanceMatrix, buildInstanceMatrix (exEnv 2 exMapsOk) (exPrivateData false)
      (computeXforms (exEnv 2 exMapsOk) (exPrivateData false)).1
      (computeXforms (exEnv 2 exMapsOk) (exPrivateData false)).2 = some instanceMatrix) ∧
    ∃ out, PointInstancerOp (exEnv 2 exMapsOk) (exPrivateData false) exInterface
      = Except.ok out := by
  have h1 : (computeXforms (exEnv 2 exMapsOk) (exPrivateData false)).2 ≤
      (exPrivateData false).motionSampleTimes.length := by decide
  have h2 : (computeXforms (exEnv 2 exMapsOk) (exPrivateData false)).2 ≤
      (computeXforms (exEnv 2 exMapsOk) (exPrivateData false)).1.length := by decide
  have h := flattening_in_bounds (exEnv 2 exMapsOk) (exPrivateData false) exInterface h1 h2
    (by
      intro first a sample h0 ha hs
      have hf : first = [exMatrix 9, exMatrix 109, exMatrix 209] := by
        rw [exXforms_eq] at h0
        simp only [List.getElem?_cons_zero, Option.some.injEq] at h0
        exact h0.symm
      rw [hf]
      exact exXforms_bounds a sample ha hs)
  exact ⟨h1, h2, h.2.2.1 (exEnv_produced _), h.2.2.2⟩

end InBoundsInstances

/-! ## Distinct and shared time keys -/

section SharedKeys

variable {R P : Type}

theorem mem_take_index {α : Type} (l : List α) (n : Nat) (x : α) (h : x ∈ l.take n) :
    ∃ a, a < n ∧ l[a]? = some x := by
  obtain ⟨i, hi⟩ := List.mem_iff_getElem?.mp h
  rw [List.getElem?_take] at hi
  by_cases hlt : i < n
  · rw [if_pos hlt] at hi
    exact ⟨i, hlt, hi⟩
  · rw [if_neg hlt] at hi
    cases hi

theorem flat_filter_length (l : List (R × List (GfMatrix4d R))) (q : R × List (GfMatrix4d R) → Bool)
    (numInstances : Nat) (h : ∀ p, p ∈ l → numInstances ≤ p.2.length) :
    ((l.filter q).flatMap
      (fun p => (p.2.take numInstances).flatMap GfMatrix4d.GetArray)).length =
      16 * numInstances * (l.filter q).length := by
  induction l with
  | nil => simp
  | cons hd tl ih =>
    have ht := ih (fun p hp => h p (List.mem_cons_of_mem _ hp))
    by_cases hq : q hd = true
    · rw [List.filter_cons_of_pos hq, List.flatMap_cons, List.length_append, ht,
        flat_length hd.2 numInstances (h hd (List.mem_cons_self _ _)), List.length_cons]
      rw [Nat.mul_succ]
      omega
    · rw [List.filter_cons_of_neg hq]
      exact ht

theorem filter_length_two {α : Type} (l : List α) (q : α → Bool) (a b : Nat) (x y : α)
    (hab : a < b) (ha : l[a]? = some x) (hb : l[b]? = some y)
    (hx : q x = true) (hy : q y = true) : 2 ≤ (l.filter q).length := by
  have hsplit : l = l.take b ++ l.drop b := (List.take_append_drop b l).symm
  have h1 : x ∈ l.take b := by
    apply List.getElem?_mem (n := a)
    rw [List.getElem?_take, if_pos hab]
    exact ha
  have h2 : y ∈ l.drop b := by
    apply List.getElem?_mem (n := 0)
    rw [List.getElem?_drop]
    simpa using hb
  have c1 : 0 < ((l.take b).filter q).length :=
    List.length_pos_of_mem (List.mem_filter.mpr ⟨h1, hx⟩)
  have c2 : 0 < ((l.drop b).filter q).length :=
    List.length_pos_of_mem (List.mem_filter.mpr ⟨h2, hy⟩)
  rw [hsplit, List.filter_append, List.length_append]
  omega

variable [DecidableEq R]

/-- C13, as amended. Let the produced-sample count n exceed neither the number
of offsets nor the number of sample arrays, and let every one of the first n
samples hold at least N matrices, N being the size of the first produced
sample. If the time keys of the first n offsets are pairwise distinct,
the built `instanceMatrix` attribute has exactly n buffers, each of length
exactly 16 * N, under the keys of the offsets 0..n-1. If two of these offsets
share a time key, the samples whose offsets have that key are concatenated, in
index order, into the single buffer held under it; its length is at least
32 * N, hence greater than 16 * N whenever N is positive. -/
theorem instanceMatrix_distinct_or_shared_keys (env : Collaborators R P)
    (privateData : PrivateData R P)
    (xformSamples : List (List (GfMatrix4d R))) (n : Nat) (first : List (GfMatrix4d R))
    (h0 : xformSamples[0]? = some first)
    (hn1 : n ≤ privateData.motionSampleTimes.length) (hn2 : n ≤ xformSamples.length)
    (hN : ∀ a sample, a < n → xformSamples[a]? = some sample → first.length ≤ sample.length) :
    ∃ instanceMatrix, buildInstanceMatrix env privateData xformSamples n = some instanceMatrix ∧
      (((privateData.motionSampleTimes.take n).map (timeKey env privateData)).Nodup →
        instanceMatrix.getNumberOfTimeSamples = n ∧
        instanceMatrix.samples.map Prod.fst =
          (privateData.motionSampleTimes.take n).map (timeKey env privateData) ∧
        ∀ p, p ∈ instanceMatrix.samples → p.2.length = 16 * first.length) ∧
      (∀ a b ta tb, a < b → b < n →
        privateData.motionSampleTimes[a]? = some ta →
        privateData.motionSampleTimes[b]? = some tb →
        timeKey env privateData ta = timeKey env privateData tb →
        (instanceMatrix.samples.map Prod.fst).Nodup ∧
        ∃ buf, assocGet (timeKey env privateData ta) instanceMatrix.samples = some buf ∧
          buf = (((privateData.motionSampleTimes.take n).zip (xformSamples.take n)).filter
            (fun p => decide (timeKey env privateData p.1 = timeKey env privateData ta))).flatMap
            (fun p => (p.2.take first.length).flatMap GfMatrix4d.GetArray) ∧
          32 * first.length ≤ buf.length ∧
          (0 < first.length → 16 * first.length < buf.length)) := by
  obtain ⟨im, him, hnd, hmem, hget⟩ :=
    buildInstanceMatrix_general env privateData xformSamples n first h0 hn1 hn2 hN
  have hbound : ∀ p, p ∈ (privateData.motionSampleTimes.take n).zip (xformSamples.take n) →
      first.length ≤ p.2.length := by
    intro p hp
    obtain ⟨a, ha, hs⟩ := mem_take_index _ _ _ (List.of_mem_zip hp).2
    exact hN a p.2 ha hs
  refine ⟨im, him, ?_, ?_⟩
  · intro hk
    have hd := buildInstanceMatrix_distinct env privateData xformSamples n first h0 hn1 hn2 hN hk
    rw [him, Option.some.injEq] at hd
    subst hd
    have hkeys := flatData_keys env privateData xformSamples first.length n hn1 hn2
    refine ⟨?_, hkeys, ?_⟩
    · have h := congrArg List.length hkeys
      simp only [List.length_map, List.length_take] at h
      simp only [Attribute.getNumberOfTimeSamples, Attribute.samples, List.length_map]
      omega
    · intro p hp
      simp only [Attribute.samples] at hp
      obtain ⟨q, hq, rfl⟩ := List.mem_map.mp hp
      exact flat_length q.2 first.length (hbound q hq)
  · intro a b ta tb hab hb hta htb hkey
    have ha : a < n := Nat.lt_trans hab hb
    have ha2 : a < xformSamples.length := Nat.lt_of_lt_of_le ha hn2
    have hb2 : b < xformSamples.length := Nat.lt_of_lt_of_le hb hn2
    have hza : ((privateData.motionSampleTimes.take n).zip (xformSamples.take n))[a]? =
        some (ta, xformSamples[a]) := by
      rw [List.getElem?_zip_eq_some]
      simp [List.getElem?_take, ha, hta, List.getElem?_eq_getElem ha2]
    have hzb : ((privateData.motionSampleTimes.take n).zip (xformSamples.take n))[b]? =
        some (tb, xformSamples[b]) := by
      rw [List.getElem?_zip_eq_some]
      simp [List.getElem?_take, hb, htb, List.getElem?_eq_getElem hb2]
    have hin : timeKey env privateData ta ∈ im.samples.map Prod.fst := by
      rw [hmem]
      refine List.mem_map.mpr ⟨ta, ?_, rfl⟩
      apply List.getElem?_mem (n := a)
      rw [List.getElem?_take, if_pos ha]
      exact hta
    obtain ⟨buf, hbuf⟩ := assocGet_of_mem_keys _ _ hin
    have hval := hget (timeKey env privateData ta)
    rw [hbuf, Option.getD_some] at hval
    have hlen := flat_filter_length
      ((privateData.motionSampleTimes.take n).zip (xformSamples.take n))
      (fun p => decide (timeKey env privateData p.1 = timeKey env privateData ta))
      first.length hbound
    have htwo := filter_length_two
      ((privateData.motionSampleTimes.take n).zip (xformSamples.take n))
      (fun p => decide (timeKey env privateData p.1 = timeKey env privateData ta))
      a b _ _ hab hza hzb (by simp) (by simp [hkey])
    have h32 : 32 * first.length ≤ buf.length := by
      rw [hval, hlen]
      calc 32 * first.length = 16 * first.length * 2 := by omega
        _ ≤ _ := Nat.mul_le_mul_left _ htwo
    refine ⟨hnd, buf, hbuf, hval, h32, ?_⟩
    intro hpos
    omega

end SharedKeys

section SharedKeysInstances

theorem exDup_bounds (a : Nat) (sample : List (GfMatrix4d Int)) (ha : a < 2)
    (hs : (computeXforms (exEnv 2 exMapsOk) exPrivateDataDup).1[a]? = some sample) :
    [exMatrix 10, exMatrix 110, exMatrix 210].length ≤ sample.length := by
  rw [exDup_xforms] at hs
  match a, ha with
  | 0, _ =>
    simp only [List.getElem?_cons_zero, Option.some.injEq] at hs
    rw [← hs]
  | 1, _ =>
    simp only [List.getElem?_cons_succ, List.getElem?_cons_zero, Option.some.injEq] at hs
    rw [← hs]

/-- Instance of C13 as amended: the offsets -1, 1 give two buffers of length
48; the offsets 0, 0 give one buffer of length at least 96 under key 0. -/
theorem instanceMatrix_distinct_or_shared_keys_witness :
    (∃ instanceMatrix,
      buildInstanceMatrix (exEnv 2 exMapsOk) (exPrivateData false)
        (computeXforms (exEnv 2 exMapsOk) (exPrivateData false)).1 2 = some instanceMatrix ∧
      instanceMatrix.getNumberOfTimeSamples = 2 ∧
      instanceMatrix.samples.map Prod.fst = [-1, 1] ∧
      ∀ p, p ∈ instanceMatrix.samples → p.2.length = 16 * 3) ∧
    (∃ instanceMatrix,
      buildInstanceMatrix (exEnv 2 exMapsOk) exPrivateDataDup
        (computeXforms (exEnv 2 exMapsOk) exPrivateDataDup).1 2 = some instanceMatrix ∧
      ∃ buf, assocGet 0 instanceMatrix.samples = some buf ∧
        32 * 3 ≤ buf.length ∧ 16 * 3 < buf.length) := by
  constructor
  · obtain ⟨im, him, hdistinct, _⟩ :=
      instanceMatrix_distinct_or_shared_keys (exEnv 2 exMapsOk) (exPrivateData false)
        (computeXforms (exEnv 2 exMapsOk) (exPrivateData false)).1 2
        [exMatrix 9, exMatrix 109, exMatrix 209] rfl (by decide) (by decide) exXforms_bounds
    exact ⟨im, him, hdistinct (by decide)⟩
  · obtain ⟨im, him, _, hshared⟩ :=
      instanceMatrix_distinct_or_shared_keys (exEnv 2 exMapsOk) exPrivateDataDup
        (computeXforms (exEnv 2 exMapsOk) exPrivateDataDup).1 2
        [exMatrix 10, exMatrix 110, exMatrix 210] rfl (by decide) (by decide) exDup_bounds
    obtain ⟨_, buf, hbuf, _, h32, h16⟩ := hshared 0 1 0 0 (by decide) (by decide)
      (by simp [exPrivateDataDup]) (by simp [exPrivateDataDup]) rfl
    exact ⟨im, him, buf, hbuf, h32, h16 (by decide)⟩

/-- C13 fails as stated when N = 0: with the offsets 0, 0, which share the
time key 0, and two produced samples that hold no matrix, the single buffer
under key 0 is empty, so its length is not greater than 16 * N = 0. -/
theorem instanceMatrix_shared_key_no_instances :
    computeXforms exEnvNoInstances exPrivateDataDup = ([[], []], 2) ∧
    exPrivateDataDup.motionSampleTimes.map (timeKey exEnvNoInstances exPrivateDataDup)
      = [0, 0] ∧
    ∃ instanceMatrix,
      buildInstanceMatrix exEnvNoInstances exPrivateDataDup
        (computeXforms exEnvNoInstances exPrivateDataDup).1
        (computeXforms exEnvNoInstances exPrivateDataDup).2 = some instanceMatrix ∧
      instanceMatrix.samples = [(0, [])] ∧
      ¬ (16 * ([] : List (GfMatrix4d Int)).length < ([] : List Int).length) := by
  refine ⟨rfl, rfl, Attribute.double 16 [(0, [])], ?_, rfl, by decide⟩
  have h := buildInstanceMatrix_same_key exEnvNoInstances exPrivateDataDup [] [] 0 0 [] []
    rfl rfl (Nat.le_refl _)
  exact h

end SharedKeysInstances

/-! ## The skip-children attribute and the terminal states -/

section SkipDirective

variable {R P : Type}

theorem sourceChildCall_setsAttr (rootPrim : P) (opArg : Attribute R)
    (cs : List (String × Attribute R)) (attrName : String) (c : Call R P)
    (h : c ∈ cs.map (sourceChildCall rootPrim opArg)) : c.setsAttr attrName = false := by
  obtain ⟨x, _, rfl⟩ := List.mem_map.mp h
  rfl

theorem sourceChildCall_createsChild (rootPrim : P) (opArg : Attribute R)
    (cs : List (String × Attribute R)) (c : Call R P)
    (h : c ∈ cs.map (sourceChildCall rootPrim opArg)) : c.createsChild = true := by
  obtain ⟨x, _, rfl⟩ := List.mem_map.mp h
  rfl

variable [Add R] [Zero R]

theorem valid_builds_calls (env : Collaborators R P)
    (privateData : PrivateData R P) (interface : GeolibCookInterface R P)
    (instanceMatrix : Attribute R) :
    ((createSourceChildren privateData
        ((readerMaps env privateData interface instanceMatrix).sourcesAttrMap.build.getChildByName
          "c")
        ((((afterInstancerMap env privateData interface instanceMatrix).log
          (Call.buildAttrMap "sourcesAttrMap")).log (Call.buildAttrMap "instancesAttrMap")).setAttr
          "__UsdIn.skipAllChildren" (Attribute.int 1))).execOp "StaticSceneCreate"
        (readerMaps env privateData interface instanceMatrix).instancesAttrMap.build).calls =
      (afterInstancerMap env privateData interface instanceMatrix).calls ++
        [Call.buildAttrMap "sourcesAttrMap", Call.buildAttrMap "instancesAttrMap",
         Call.setAttr "__UsdIn.skipAllChildren" (Attribute.int 1)] ++
        ((readerMaps env privateData interface
            instanceMatrix).sourcesAttrMap.build.getChildByName "c").children.map
          (sourceChildCall privateData.usdInArgs.rootPrim interface.opArg) ++
        [Call.execOp "StaticSceneCreate"
          (readerMaps env privateData interface instanceMatrix).instancesAttrMap.build] := by
  simp [GeolibCookInterface.execOp, GeolibCookInterface.log, createSourceChildren_calls,
    GeolibCookInterface.setAttr, afterInstancerMap_opArg]

theorem valid_builds_outputAttrs (env : Collaborators R P)
    (privateData : PrivateData R P) (interface : GeolibCookInterface R P)
    (instanceMatrix : Attribute R) :
    ((createSourceChildren privateData
        ((readerMaps env privateData interface instanceMatrix).sourcesAttrMap.build.getChildByName
          "c")
        ((((afterInstancerMap env privateData interface instanceMatrix).log
          (Call.buildAttrMap "sourcesAttrMap")).log (Call.buildAttrMap "instancesAttrMap")).setAttr
          "__UsdIn.skipAllChildren" (Attribute.int 1))).execOp "StaticSceneCreate"
        (readerMaps env privateData interface instanceMatrix).instancesAttrMap.build).outputAttrs =
      assocSet "__UsdIn.skipAllChildren" (Attribute.int 1)
        (afterInstancerMap env privateData interface instanceMatrix).outputAttrs := by
  simp [GeolibCookInterface.execOp, GeolibCookInterface.log, createSourceChildren_outputAttrs,
    GeolibCookInterface.setAttr]

variable [DecidableEq R]

theorem PointInstancerOp_of_reader_error (env : Collaborators R P)
    (privateData : PrivateData R P) (interface : GeolibCookInterface R P)
    (instanceMatrix : Attribute R)
    (hn : (computeXforms env privateData).2 ≠ 0)
    (hm : buildInstanceMatrix env privateData (computeXforms env privateData).1
      (computeXforms env privateData).2 = some instanceMatrix)
    (hte : typeIsError (afterInstancerMap env privateData interface instanceMatrix) = true) :
    PointInstancerOp env privateData interface =
      Except.ok (afterInstancerMap env privateData interface instanceMatrix) := by
  rw [PointInstancerOp_after_reader env privateData interface instanceMatrix hn hm, if_pos hte]

theorem PointInstancerOp_of_invalid_build (env : Collaborators R P)
    (privateData : PrivateData R P) (interface : GeolibCookInterface R P)
    (instanceMatrix : Attribute R)
    (hn : (computeXforms env privateData).2 ≠ 0)
    (hm : buildInstanceMatrix env privateData (computeXforms env privateData).1
      (computeXforms env privateData).2 = some instanceMatrix)
    (hte : typeIsError (afterInstancerMap env privateData interface instanceMatrix) = false)
    (hinv : (readerMaps env privateData interface instanceMatrix).sourcesAttrMap.build.isValid
        = false ∨
      (readerMaps env privateData interface instanceMatrix).instancesAttrMap.build.isValid
        = false) :
    PointInstancerOp env privateData interface =
      Except.ok (((afterInstancerMap env privateData interface instanceMatrix).log
        (Call.buildAttrMap "sourcesAttrMap")).log (Call.buildAttrMap "instancesAttrMap")) := by
  rw [PointInstancerOp_after_reader env privateData interface instanceMatrix hn hm]
  rcases hinv with h | h <;> simp [hte, h]

theorem PointInstancerOp_of_valid_builds (env : Collaborators R P)
    (privateData : PrivateData R P) (interface : GeolibCookInterface R P)
    (instanceMatrix : Attribute R)
    (hn : (computeXforms env privateData).2 ≠ 0)
    (hm : buildInstanceMatrix env privateData (computeXforms env privateData).1
      (computeXforms env privateData).2 = some instanceMatrix)
    (hte : typeIsError (afterInstancerMap env privateData interface instanceMatrix) = false)
    (hs : (readerMaps env privateData interface instanceMatrix).sourcesAttrMap.build.isValid
      = true)
    (hi : (readerMaps env privateData interface instanceMatrix).instancesAttrMap.build.isValid
      = true) :
    PointInstancerOp env privateData interface =
      Except.ok ((createSourceChildren privateData
        ((readerMaps env privateData interface instanceMatrix).sourcesAttrMap.build.getChildByName
          "c")
        ((((afterInstancerMap env privateData interface instanceMatrix).log
          (Call.buildAttrMap "sourcesAttrMap")).log (Call.buildAttrMap "instancesAttrMap")).setAttr
          "__UsdIn.skipAllChildren" (Attribute.int 1))).execOp "StaticSceneCreate"
        (readerMaps env privateData interface instanceMatrix).instancesAttrMap.build) := by
  rw [PointInstancerOp_after_reader env privateData interface instanceMatrix hn hm]
  simp only [hte, hs, hi]
  rfl

/-- C11, as amended. On the success path the skip-default-children directive
is the attribute write `setAttr("__UsdIn.skipAllChildren", IntAttribute(1))`:
it is the first call after the two builds, the attribute name is exactly
"__UsdIn.skipAllChildren" and the value is the integer 1, which is what the
output attribute of that name reads afterwards. No later call writes an
attribute named "__skipAllChildren" (or writes the directive again), and the
output attribute "__skipAllChildren" is left as the instancer map set it. -/
theorem skipAllChildren_attribute_write (env : Collaborators R P)
    (privateData : PrivateData R P) (interface : GeolibCookInterface R P)
    (instanceMatrix : Attribute R)
    (hn : (computeXforms env privateData).2 ≠ 0)
    (hm : buildInstanceMatrix env privateData (computeXforms env privateData).1
      (computeXforms env privateData).2 = some instanceMatrix)
    (hok : ((afterInstancerMap env privateData interface instanceMatrix).getOutputAttr
      "type").getStringValue "" ≠ "error")
    (hs : (readerMaps env privateData interface instanceMatrix).sourcesAttrMap.build.isValid
      = true)
    (hi : (readerMaps env privateData interface instanceMatrix).instancesAttrMap.build.isValid
      = true) :
    ∃ out rest, PointInstancerOp env privateData interface = Except.ok out ∧
      out.calls = (afterInstancerMap env privateData interface instanceMatrix).calls ++
        [Call.buildAttrMap "sourcesAttrMap", Call.buildAttrMap "instancesAttrMap"] ++
        Call.setAttr "__UsdIn.skipAllChildren" (Attribute.int 1) :: rest ∧
      (∀ c, c ∈ rest → c.setsAttr "__skipAllChildren" = false ∧
        c.setsAttr "__UsdIn.skipAllChildren" = false) ∧
      out.getOutputAttr "__UsdIn.skipAllChildren" = Attribute.int 1 ∧
      out.getOutputAttr "__skipAllChildren" =
        (afterInstancerMap env privateData interface instanceMatrix).getOutputAttr
          "__skipAllChildren" := by
  have hte : typeIsError (afterInstancerMap env privateData interface instanceMatrix) = false := by
    simp [typeIsError, hok]
  refine ⟨_, ((readerMaps env privateData interface
      instanceMatrix).sourcesAttrMap.build.getChildByName "c").children.map
        (sourceChildCall privateData.usdInArgs.rootPrim interface.opArg) ++
      [Call.execOp "StaticSceneCreate"
        (readerMaps env privateData interface instanceMatrix).instancesAttrMap.build],
    PointInstancerOp_of_valid_builds env privateData interface instanceMatrix hn hm
    hte hs hi, ?_, ?_, ?_, ?_⟩
  · rw [valid_builds_calls]
    simp only [List.append_assoc, List.cons_append, List.nil_append]
  · intro c hc
    rcases List.mem_append.mp hc with h | h
    · exact ⟨sourceChildCall_setsAttr _ _ _ _ c h, sourceChildCall_setsAttr _ _ _ _ c h⟩
    · rw [List.mem_singleton] at h
      subst h
      exact ⟨rfl, rfl⟩
  · simp only [GeolibCookInterface.getOutputAttr, valid_builds_outputAttrs,
      assocGet_assocSet_self, Option.getD_some]
  · simp only [GeolibCookInterface.getOutputAttr, valid_builds_outputAttrs]
    rw [assocGet_assocSet_ne _ _ _ _ (by decide)]

end SkipDirective

section SkipDirectiveInstances

theorem exRun_ok :
    PointInstancerOp (exEnv 2 exMapsOk) (exPrivateData false) exInterface =
      Except.ok ((createSourceChildren (exPrivateData false)
        (exMapsOk.sourcesAttrMap.build.getChildByName "c")
        ((((afterInstancerMap (exEnv 2 exMapsOk) (exPrivateData false) exInterface
          exInstanceMatrix).log
          (Call.buildAttrMap "sourcesAttrMap")).log (Call.buildAttrMap "instancesAttrMap")).setAttr
          "__UsdIn.skipAllChildren" (Attribute.int 1))).execOp "StaticSceneCreate"
        exMapsOk.instancesAttrMap.build) := by
  have hte : typeIsError (afterInstancerMap (exEnv 2 exMapsOk) (exPrivateData false)
      exInterface exInstanceMatrix) = false := by
    simp [typeIsError, exInterface_type_ne_error exMapsOk rfl]
  exact PointInstancerOp_of_valid_builds (exEnv 2 exMapsOk) (exPrivateData false) exInterface
    exInstanceMatrix (exEnv_produced _) (exEnv_instanceMatrix _) hte rfl rfl

/-- Instance of C11 as amended: the run with two prototypes. -/
theorem skipAllChildren_attribute_write_witness :
    (computeXforms (exEnv 2 exMapsOk) (exPrivateData false)).2 ≠ 0 ∧
    ((afterInstancerMap (exEnv 2 exMapsOk) (exPrivateData false) exInterface
      exInstanceMatrix).getOutputAttr "type").getStringValue "" ≠ "error" ∧
    ∃ out rest, PointInstancerOp (exEnv 2 exMapsOk) (exPrivateData false) exInterface
        = Except.ok out ∧
      out.calls = (afterInstancerMap (exEnv 2 exMapsOk) (exPrivateData false) exInterface
          exInstanceMatrix).calls ++
        [Call.buildAttrMap "sourcesAttrMap", Call.buildAttrMap "instancesAttrMap"] ++
        Call.setAttr "__UsdIn.skipAllChildren" (Attribute.int 1) :: rest ∧
      out.getOutputAttr "__UsdIn.skipAllChildren" = Attribute.int 1 := by
  refine ⟨exEnv_produced _, exInterface_type_ne_error exMapsOk rfl, ?_⟩
  obtain ⟨out, rest, h1, h2, _, h4, _⟩ :=
    skipAllChildren_attribute_write (exEnv 2 exMapsOk) (exPrivateData false) exInterface
      exInstanceMatrix (exEnv_produced _) (exEnv_instanceMatrix _)
      (exInterface_type_ne_error exMapsOk rfl) rfl rfl
  exact ⟨out, rest, h1, h2, h4⟩

/-- C11 fails as stated: in the successful run with two prototypes no call
writes an attribute named "__skipAllChildren" and that output attribute stays
unset; the directive is written under the name "__UsdIn.skipAllChildren". -/
theorem skipAllChildren_name_in_code :
    ∃ out, PointInstancerOp (exEnv 2 exMapsOk) (exPrivateData false) exInterface
        = Except.ok out ∧
      out.calls.any (Call.setsAttr "__skipAllChildren") = false ∧
      out.getOutputAttr "__skipAllChildren" = Attribute.null ∧
      out.calls.any (Call.setsAttr "__UsdIn.skipAllChildren") = true ∧
      out.getOutputAttr "__UsdIn.skipAllChildren" = Attribute.int 1 :=
  ⟨_, exRun_ok, rfl, rfl, rfl, rfl⟩

end SkipDirectiveInstances

section TerminalStates

variable {R P : Type}

theorem countP_eq_zero_of {α : Type} (l : List α) (p : α → Bool)
    (h : ∀ c, c ∈ l → p c = false) : l.countP p = 0 := by
  rw [List.countP_eq_zero]
  intro a ha
  simp [h a ha]

theorem no_child_call (l : List (Call R P)) (h : ∀ c, c ∈ l → c.createsChild = false)
    (k : Nat) (c : Call R P) (hk : l[k]? = some c) (hc : c.createsChild = true) : False := by
  have := h c (List.getElem?_mem hk)
  rw [this] at hc
  cases hc

theorem directive_first (A B : List (Call R P)) (d : Call R P)
    (hA : ∀ c, c ∈ A → c.createsChild = false) (hd : d.createsChild = false)
    (k : Nat) (c : Call R P) (hk : (A ++ d :: B)[k]? = some c) (hc : c.createsChild = true) :
    ∃ j, j < k ∧ (A ++ d :: B)[j]? = some d := by
  have hmid : (A ++ d :: B)[A.length]? = some d := by
    rw [List.getElem?_append, if_neg (Nat.lt_irrefl _)]
    simp
  by_cases h1 : k < A.length
  · rw [List.getElem?_append, if_pos h1] at hk
    exact (no_child_call A hA k c hk hc).elim
  · by_cases h2 : k = A.length
    · subst h2
      rw [hmid] at hk
      cases hk
      rw [hd] at hc
      cases hc
    · exact ⟨A.length, by omega, hmid⟩

theorem setAttr_calls_no_child (cs : List (String × Attribute R)) (c : Call R P)
    (h : c ∈ cs.map (fun c => Call.setAttr c.1 c.2)) : c.createsChild = false := by
  obtain ⟨x, _, rfl⟩ := List.mem_map.mp h
  rfl

variable [DecidableEq R] [Add R] [Zero R]

theorem reaches_unique (env : Collaborators R P) (privateData : PrivateData R P)
    (interface : GeolibCookInterface R P) (s1 s2 : TerminalState)
    (h1 : reaches env privateData interface s1) (h2 : reaches env privateData interface s2) :
    s1 = s2 := by
  cases s1 <;> cases s2 <;> simp only [reaches] at h1 h2
  all_goals first
    | rfl
    | exact absurd h1.1 h2.1
    | exact absurd h2.1 h1.1
    | (exfalso
       obtain ⟨_, im1, hm1, r1⟩ := h1
       obtain ⟨_, im2, hm2, r2⟩ := h2
       rw [hm1] at hm2
       cases hm2
       simp_all)

end TerminalStates

section TerminalOutcome

variable {R P : Type} [Add R] [Zero R]

theorem reader_calls_no_child (env : Collaborators R P) (privateData : PrivateData R P)
    (interface : GeolibCookInterface R P) (instanceMatrix : Attribute R) (c : Call R P)
    (hc : c ∈ computeCall privateData ::
      Call.readPointInstancer privateData.usdPrim (readerInput interface instanceMatrix).build ::
      (readerMaps env privateData interface instanceMatrix).instancerAttrMap.build.children.map
        (fun c => Call.setAttr c.1 c.2)) :
    c.createsChild = false := by
  rcases List.mem_cons.mp hc with h | h
  · subst h; rfl
  · rcases List.mem_cons.mp h with h2 | h2
    · subst h2; rfl
    · exact setAttr_calls_no_child _ c h2

theorem afterInstancerMap_calls_cons (env : Collaborators R P) (privateData : PrivateData R P)
    (interface : GeolibCookInterface R P) (instanceMatrix : Attribute R)
    (own : List (Call R P)) :
    (afterInstancerMap env privateData interface instanceMatrix).calls ++ own =
      interface.calls ++ computeCall privateData ::
        ((Call.readPointInstancer privateData.usdPrim
            (readerInput interface instanceMatrix).build ::
          (readerMaps env privateData interface
            instanceMatrix).instancerAttrMap.build.children.map
              (fun c => Call.setAttr c.1 c.2)) ++ own) := by
  rw [afterInstancerMap_calls]
  simp only [List.append_assoc, List.cons_append, List.nil_append]

variable [DecidableEq R]

/-- C12. Let the computer's result keep the flattening in range (produced
count at most the number of offsets and of sample arrays, each produced sample
at least as large as the first). Then the op returns normally and its calls
are: the transform computation; then, unless no sample was produced, the
reader call and the attribute writes replayed from the reader's instancer map;
then the op's own calls. Among the op's own calls the skip-children attribute
is written at most once, and exactly once precisely when the run ends in the
child-emitting state (non-zero produced count, no error read back after the
instancer map, both builds valid); no child is created and no final build is
executed outside the op's own calls, and within them every `createChild` and
the `StaticSceneCreate` come after the write
`setAttr("__UsdIn.skipAllChildren", 1)`; and the run ends in exactly one of the
four terminal states. -/
theorem terminal_state_and_directive (env : Collaborators R P)
    (privateData : PrivateData R P) (interface : GeolibCookInterface R P)
    (hn1 : (computeXforms env privateData).2 ≤ privateData.motionSampleTimes.length)
    (hn2 : (computeXforms env privateData).2 ≤ (computeXforms env privateData).1.length)
    (hN : ∀ first a sample, (computeXforms env privateData).1[0]? = some first →
      a < (computeXforms env privateData).2 →
      (computeXforms env privateData).1[a]? = some sample → first.length ≤ sample.length) :
    ∃ out fromReader own, PointInstancerOp env privateData interface = Except.ok out ∧
      out.calls = interface.calls ++ computeCall privateData :: (fromReader ++ own) ∧
      (((computeXforms env privateData).2 = 0 ∧ fromReader = []) ∨
        ∃ instanceMatrix,
          buildInstanceMatrix env privateData (computeXforms env privateData).1
            (computeXforms env privateData).2 = some instanceMatrix ∧
          fromReader =
            Call.readPointInstancer privateData.usdPrim
              (readerInput interface instanceMatrix).build ::
            (readerMaps env privateData interface
              instanceMatrix).instancerAttrMap.build.children.map
                (fun c => Call.setAttr c.1 c.2)) ∧
      (∀ c, c ∈ computeCall privateData :: fromReader → c.createsChild = false) ∧
      own.countP (Call.setsAttr "__UsdIn.skipAllChildren") ≤ 1 ∧
      (own.countP (Call.setsAttr "__UsdIn.skipAllChildren") = 1 ↔
        reaches env privateData interface TerminalState.emittingChildren) ∧
      (∀ (k : Nat) (c : Call R P), own[k]? = some c → c.createsChild = true →
        ∃ j : Nat, j < k ∧
          own[j]? = some (Call.setAttr "__UsdIn.skipAllChildren" (Attribute.int 1))) ∧
      ∃! s, reaches env privateData interface s := by
  by_cases hn : (computeXforms env privateData).2 = 0
  · -- line 85
    have hop := PointInstancerOp_of_no_samples env privateData interface hn
    have hreach : reaches env privateData interface TerminalState.errorNoSamples :=
      ⟨hn, _, hop, by simp [GeolibCookInterface.setAttr, GeolibCookInterface.log]⟩
    have hnochild : ∀ c, c ∈ [Call.setAttr (R := R) (P := P) "type" (Attribute.string "error"),
        Call.setAttr "errorMessage" (Attribute.string noSamplesMessage)] →
        Call.createsChild c = false := by
      intro c hc
      simp only [List.mem_cons, List.mem_singleton, List.not_mem_nil, or_false] at hc
      rcases hc with h | h <;> subst h <;> rfl
    have hcount : List.countP (Call.setsAttr "__UsdIn.skipAllChildren")
        [Call.setAttr (R := R) (P := P) "type" (Attribute.string "error"),
         Call.setAttr "errorMessage" (Attribute.string noSamplesMessage)] = 0 := by
      apply countP_eq_zero_of
      intro c hc
      simp only [List.mem_cons, List.mem_singleton, List.not_mem_nil, or_false] at hc
      rcases hc with h | h <;> subst h <;> rfl
    refine ⟨_, [], [Call.setAttr "type" (Attribute.string "error"),
      Call.setAttr "errorMessage" (Attribute.string noSamplesMessage)], hop, ?_,
      Or.inl ⟨hn, rfl⟩, ?_, ?_, ?_, ?_, ?_⟩
    · simp [GeolibCookInterface.setAttr, GeolibCookInterface.log]
    · intro c hc
      rw [List.mem_singleton] at hc
      subst hc
      rfl
    · rw [hcount]; exact Nat.zero_le 1
    · rw [hcount]
      constructor
      · intro h; cases h
      · intro h
        exact absurd hn h.1
    · intro k c hk hc
      exact (no_child_call _ hnochild k c hk hc).elim
    · exact ⟨_, hreach, fun s hs => reaches_unique env privateData interface _ _ hs hreach⟩
  · obtain ⟨first, h0⟩ := head_of_pos _ _ hn hn2
    obtain ⟨im, him, _⟩ := buildInstanceMatrix_general env privateData
      (computeXforms env privateData).1 (computeXforms env privateData).2 first h0 hn1 hn2
      (fun a sample ha hs => hN first a sample h0 ha hs)
    have hpre := reader_calls_no_child env privateData interface im
    by_cases hte : typeIsError (afterInstancerMap env privateData interface im) = true
    · -- line 141
      have hop := PointInstancerOp_of_reader_error env privateData interface im hn him hte
      have hreach : reaches env privateData interface TerminalState.errorFromReader :=
        ⟨hn, im, him, hte, hop⟩
      refine ⟨_, _, [], hop, ?_, Or.inr ⟨im, him, rfl⟩, hpre, ?_, ?_, ?_, ?_⟩
      · have h := afterInstancerMap_calls_cons env privateData interface im []
        rw [List.append_nil] at h
        exact h
      · exact Nat.zero_le 1
      · constructor
        · intro h; cases h
        · intro h
          exact absurd (reaches_unique env privateData interface _ _ h hreach) (by decide)
      · intro k c hk _
        simp at hk
      · exact ⟨_, hreach, fun s hs => reaches_unique env privateData interface _ _ hs hreach⟩
    · have hte2 : typeIsError (afterInstancerMap env privateData interface im) = false := by
        simpa using hte
      by_cases hvalid :
          (readerMaps env privateData interface im).sourcesAttrMap.build.isValid = true ∧
          (readerMaps env privateData interface im).instancesAttrMap.build.isValid = true
      · -- line 178
        obtain ⟨hs, hi⟩ := hvalid
        have hop := PointInstancerOp_of_valid_builds env privateData interface im hn him hte2
          hs hi
        have hcalls := valid_builds_calls env privateData interface im
        have hreach : reaches env privateData interface TerminalState.emittingChildren :=
          ⟨hn, im, him, hte2, hs, hi, _, hop, hcalls⟩
        have hA : ∀ c, c ∈ [Call.buildAttrMap (R := R) (P := P) "sourcesAttrMap",
            Call.buildAttrMap "instancesAttrMap"] → Call.createsChild c = false := by
          intro c hc
          simp only [List.mem_cons, List.mem_singleton, List.not_mem_nil, or_false] at hc
          rcases hc with h | h <;> subst h <;> rfl
        have hAskip : ∀ c, c ∈ [Call.buildAttrMap (R := R) (P := P) "sourcesAttrMap",
            Call.buildAttrMap "instancesAttrMap"] →
            Call.setsAttr "__UsdIn.skipAllChildren" c = false := by
          intro c hc
          simp only [List.mem_cons, List.mem_singleton, List.not_mem_nil, or_false] at hc
          rcases hc with h | h <;> subst h <;> rfl
        have hBskip : ∀ c, c ∈ ((readerMaps env privateData interface
            im).sourcesAttrMap.build.getChildByName "c").children.map
              (sourceChildCall privateData.usdInArgs.rootPrim interface.opArg) ++
            [Call.execOp "StaticSceneCreate"
              (readerMaps env privateData interface im).instancesAttrMap.build] →
            Call.setsAttr "__UsdIn.skipAllChildren" c = false := by
          intro c hc
          rcases List.mem_append.mp hc with h | h
          · exact sourceChildCall_setsAttr _ _ _ _ c h
          · rw [List.mem_singleton] at h
            subst h
            rfl
        have hcount : List.countP (Call.setsAttr "__UsdIn.skipAllChildren")
            ([Call.buildAttrMap (R := R) (P := P) "sourcesAttrMap",
              Call.buildAttrMap "instancesAttrMap"] ++
            Call.setAttr "__UsdIn.skipAllChildren" (Attribute.int 1) ::
            (((readerMaps env privateData interface
              im).sourcesAttrMap.build.getChildByName "c").children.map
                (sourceChildCall privateData.usdInArgs.rootPrim interface.opArg) ++
              [Call.execOp "StaticSceneCreate"
                (readerMaps env privateData interface im).instancesAttrMap.build])) = 1 := by
          rw [List.countP_append, countP_eq_zero_of _ _ hAskip, List.countP_cons,
            countP_eq_zero_of _ _ hBskip]
          rfl
        refine ⟨_, _, [Call.buildAttrMap "sourcesAttrMap",
            Call.buildAttrMap "instancesAttrMap"] ++
          Call.setAttr "__UsdIn.skipAllChildren" (Attribute.int 1) ::
          (((readerMaps env privateData interface
            im).sourcesAttrMap.build.getChildByName "c").children.map
              (sourceChildCall privateData.usdInArgs.rootPrim interface.opArg) ++
            [Call.execOp "StaticSceneCreate"
              (readerMaps env privateData interface im).instancesAttrMap.build]),
          hop, ?_, Or.inr ⟨im, him, rfl⟩, hpre, ?_, ?_, ?_, ?_⟩
        · rw [hcalls, ← afterInstancerMap_calls_cons]
          simp only [List.append_assoc, List.cons_append, List.nil_append]
        · rw [hcount]
        · rw [hcount]
          exact ⟨fun _ => hreach, fun _ => rfl⟩
        · intro k c hk hc
          exact directive_first
            [Call.buildAttrMap "sourcesAttrMap", Call.buildAttrMap "instancesAttrMap"]
            _ (Call.setAttr "__UsdIn.skipAllChildren" (Attribute.int 1)) hA rfl k c hk hc
        · exact ⟨_, hreach, fun s hs => reaches_unique env privateData interface _ _ hs hreach⟩
      · -- line 150
        have hinv : (readerMaps env privateData interface im).sourcesAttrMap.build.isValid
              = false ∨
            (readerMaps env privateData interface im).instancesAttrMap.build.isValid
              = false := by
          by_cases hs : (readerMaps env privateData interface im).sourcesAttrMap.build.isValid
              = true
          · right
            by_cases hi :
                (readerMaps env privateData interface im).instancesAttrMap.build.isValid = true
            · exact absurd ⟨hs, hi⟩ hvalid
            · simpa using hi
          · left
            simpa using hs
        have hop := PointInstancerOp_of_invalid_build env privateData interface im hn him hte2
          hinv
        have hcalls : (((afterInstancerMap env privateData interface im).log
            (Call.buildAttrMap "sourcesAttrMap")).log
            (Call.buildAttrMap "instancesAttrMap")).calls =
            (afterInstancerMap env privateData interface im).calls ++
              [Call.buildAttrMap "sourcesAttrMap", Call.buildAttrMap "instancesAttrMap"] := by
          simp [GeolibCookInterface.log]
        have hreach : reaches env privateData interface TerminalState.errorInvalidBuild :=
          ⟨hn, im, him, hte2, hinv, _, hop, hcalls⟩
        have hA : ∀ c, c ∈ [Call.buildAttrMap (R := R) (P := P) "sourcesAttrMap",
            Call.buildAttrMap "instancesAttrMap"] → Call.createsChild c = false := by
          intro c hc
          simp only [List.mem_cons, List.mem_singleton, List.not_mem_nil, or_false] at hc
          rcases hc with h | h <;> subst h <;> rfl
        have hcount : List.countP (Call.setsAttr "__UsdIn.skipAllChildren")
            [Call.buildAttrMap (R := R) (P := P) "sourcesAttrMap",
             Call.buildAttrMap "instancesAttrMap"] = 0 := by
          apply countP_eq_zero_of
          intro c hc
          simp only [List.mem_cons, List.mem_singleton, List.not_mem_nil, or_false] at hc
          rcases hc with h | h <;> subst h <;> rfl
        refine ⟨_, _, [Call.buildAttrMap "sourcesAttrMap",
          Call.buildAttrMap "instancesAttrMap"], hop, ?_, Or.inr ⟨im, him, rfl⟩, hpre,
          ?_, ?_, ?_, ?_⟩
        · rw [hcalls, afterInstancerMap_calls_cons]
        · rw [hcount]; exact Nat.zero_le 1
        · rw [hcount]
          constructor
          · intro h; cases h
          · intro h
            exact absurd (reaches_unique env privateData interface _ _ h hreach) (by decide)
        · intro k c hk hc
          exact (no_child_call _ hA k c hk hc).elim
        · exact ⟨_, hreach, fun s hs => reaches_unique env privateData interface _ _ hs hreach⟩

end TerminalOutcome

section TerminalOutcomeInstances

/-- Instance of C12: the run with two prototypes. -/
theorem terminal_state_and_directive_witness :
    (computeXforms (exEnv 2 exMapsOk) (exPrivateData false)).2 ≤
      (exPrivateData false).motionSampleTimes.length ∧
    (computeXforms (exEnv 2 exMapsOk) (exPrivateData false)).2 ≤
      (computeXforms (exEnv 2 exMapsOk) (exPrivateData false)).1.length ∧
    ∃ out fromReader own, PointInstancerOp (exEnv 2 exMapsOk) (exPrivateData false) exInterface
        = Except.ok out ∧
      out.calls = exInterface.calls ++ computeCall (exPrivateData false) ::
        (fromReader ++ own) ∧
      own.countP (Call.setsAttr "__UsdIn.skipAllChildren") ≤ 1 ∧
      (own.countP (Call.setsAttr "__UsdIn.skipAllChildren") = 1 ↔
        reaches (exEnv 2 exMapsOk) (exPrivateData false) exInterface
          TerminalState.emittingChildren) ∧
      ∃! s, reaches (exEnv 2 exMapsOk) (exPrivateData false) exInterface s := by
  have h1 : (computeXforms (exEnv 2 exMapsOk) (exPrivateData false)).2 ≤
      (exPrivateData false).motionSampleTimes.length := by decide
  have h2 : (computeXforms (exEnv 2 exMapsOk) (exPrivateData false)).2 ≤
      (computeXforms (exEnv 2 exMapsOk) (exPrivateData false)).1.length := by decide
  obtain ⟨out, fromReader, own, ha, hb, _, _, hc, hd, _, hf⟩ :=
    terminal_state_and_directive (exEnv 2 exMapsOk) (exPrivateData false) exInterface h1 h2
      (by
        intro first a sample h0 ha hs
        have hf : first = [exMatrix 9, exMatrix 109, exMatrix 209] := by
          rw [exXforms_eq] at h0
          simp only [List.getElem?_cons_zero, Option.some.injEq] at h0
          exact h0.symm
        rw [hf]
        exact exXforms_bounds a sample ha hs)
  exact ⟨h1, h2, out, fromReader, own, ha, hb, hc, hd, hf⟩

end TerminalOutcomeInstances

end PxrUsdIn
